import Mathlib

/-!
# Medicine Companion — verification of the client-side domain logic

A shallow embedding of the medication-reminder web application's domain
logic: the local-storage state store (`storage.ts`), the dose-lifecycle
poller (`useReminderScheduler`), the add-medication dose generation
(`add-medication/page.tsx`), and the drug-info fetch/cache flow
(`MedicationInfoModal`).

Modelling conventions:
* Timestamps (ISO strings / `Date` values in the source) are modelled as
  `Int` epoch milliseconds; `new Date(s)` is the identity under this view.
  The poller's `diffMinutes = (now - scheduled) / 60000` comparisons are
  translated exactly: `|diffMinutes| <= 5` becomes `|now - scheduled| <= 300000`
  and `diffMinutes > 30` becomes `now - scheduled > 1800000` (division by the
  positive constant 60000 is exact over the rationals).
* Optional TS fields become `Option` values; JavaScript truthiness of an
  optional string (`undefined` and `""` are falsy) is `optStrTruthy`.
* `localStorage` round-trips (`loadState`/`saveState`) are the identity, so
  each storage accessor is a pure function on `AppState`.
* `Date.now()-Math.random()` log ids are abstracted to a deterministic id
  derived from the tick time; no claim depends on log-id contents.
-/

namespace MedComp

/-- `DoseStatus` from `medicationTypes.ts`. -/
inductive DoseStatus where
  | upcoming
  | due
  | taken
  | missed
  | skipped
deriving DecidableEq, Repr

/-- `MedicationFrequency` from `medicationTypes.ts`. -/
inductive MedicationFrequency where
  | once
  | twice
  | three
  | four
  | every6h
  | every12h
  | as_needed
deriving DecidableEq, Repr

/-- `UserProfile` from `medicationTypes.ts`. -/
structure UserProfile where
  id : String
  name : String
  createdAt : Int
  isActive : Bool
deriving DecidableEq, Repr

/-- `Medication` from `medicationTypes.ts` (legacy presentational fields
`scheduleNote`, `timeOfDay`, `doctorInstructions`, `drugsUrl` omitted: no
claim mentions them). The optional TS booleans default to `false` (JS
truthiness of `undefined`), the optional strings to `none`. -/
structure Medication where
  id : String
  userId : String
  name : String
  dose : String
  purpose : Option String := none
  instructions : Option String := none
  frequency : MedicationFrequency
  times : List String
  endDate : Option Int := none
  caregiverAlertEnabled : Bool := false
  caregiverName : Option String := none
  caregiverEmail : Option String := none
  alertOnSkipped : Bool := false
  alertOnMissed : Bool := false
deriving DecidableEq, Repr

/-- `DoseInstance` from `medicationTypes.ts` (plus the `userId` field that
`storage.ts` and the add-medication page read and write on every dose row). -/
structure DoseInstance where
  id : String
  medicationId : String
  userId : String
  scheduledTime : Int
  status : DoseStatus
  takenAt : Option Int := none
  snoozedUntil : Option Int := none
deriving DecidableEq, Repr

/-- `DoseLog` from `medicationTypes.ts`. -/
structure DoseLog where
  id : String
  userId : String
  medicationId : String
  doseId : String
  status : DoseStatus
  createdAt : Int
deriving DecidableEq, Repr

/-- `MedicationInfoCacheEntry`: the declared shape (`url`, `markdown`,
`fetchedAt`) plus the tabbed fields (`general`, `usage`, `sideEffects`)
that the cached `MedicationInfoModal` actually writes and reads. -/
structure MedicationInfoCacheEntry where
  url : String
  markdown : Option String := none
  general : Option String := none
  usage : Option String := none
  sideEffects : Option String := none
  fetchedAt : Int
deriving DecidableEq, Repr

/-- `AppState` from `storage.ts`; the `medicationInfoCache` record becomes an
association list keyed by the cache key string. -/
structure AppState where
  profiles : List UserProfile
  medications : List Medication
  doses : List DoseInstance
  doseLogs : List DoseLog
  medicationInfoCache : List (String × MedicationInfoCacheEntry)
deriving DecidableEq, Repr

/-- JavaScript truthiness of an optional string: `undefined` and `""` are
falsy, every other string is truthy. -/
def optStrTruthy : Option String → Bool
  | none => false
  | some s => !(s == "")

/-! ## storage.ts -/

/-- `getProfiles` from `storage.ts`. -/
def getProfiles (st : AppState) : List UserProfile :=
  st.profiles

/-- `getActiveProfile` from `storage.ts`: first profile with `isActive`. -/
def getActiveProfile (st : AppState) : Option UserProfile :=
  st.profiles.find? (fun p => p.isActive)

/-- The `state.profiles[idx] = profile` assignment inside `upsertProfile`:
replace the first profile whose id matches. -/
def replaceFirstProfile (profile : UserProfile) : List UserProfile → List UserProfile
  | [] => []
  | p :: ps =>
      if p.id == profile.id then profile :: ps
      else p :: replaceFirstProfile profile ps

/-- `upsertProfile` from `storage.ts`: if a profile with the same id exists it
is overwritten in place; otherwise every existing profile is deactivated and
the new profile is appended. -/
def upsertProfile (profile : UserProfile) (st : AppState) : AppState :=
  if st.profiles.any (fun p => p.id == profile.id) then
    { st with profiles := replaceFirstProfile profile st.profiles }
  else
    { st with profiles :=
        (st.profiles.map (fun p => { p with isActive := false })) ++ [profile] }

/-- `setActiveProfile` from `storage.ts`: full-list rewrite, each profile's
`isActive` becomes `id == profileId`. -/
def setActiveProfile (profileId : String) (st : AppState) : AppState :=
  { st with profiles := st.profiles.map (fun p => { p with isActive := p.id == profileId }) }

/-- `deleteProfile` from `storage.ts`. -/
def deleteProfile (profileId : String) (st : AppState) : AppState :=
  { st with
    profiles := st.profiles.filter (fun p => !(p.id == profileId)),
    medications := st.medications.filter (fun m => !(m.userId == profileId)),
    doses := st.doses.filter (fun d => !(d.userId == profileId)),
    doseLogs := st.doseLogs.filter (fun log => !(log.userId == profileId)) }

/-- `getMedicationsForUser` from `storage.ts`. -/
def getMedicationsForUser (userId : String) (st : AppState) : List Medication :=
  st.medications.filter (fun m => m.userId == userId)

/-- `saveMedicationsForUser` from `storage.ts`: drop the user's medications,
then push the given ones with `userId` forced. -/
def saveMedicationsForUser (userId : String) (meds : List Medication)
    (st : AppState) : AppState :=
  { st with medications :=
      st.medications.filter (fun m => !(m.userId == userId))
        ++ meds.map (fun m => { m with userId := userId }) }

/-- `getDosesForUser` from `storage.ts`. -/
def getDosesForUser (userId : String) (st : AppState) : List DoseInstance :=
  st.doses.filter (fun d => d.userId == userId)

/-- `saveDosesForUser` from `storage.ts`. -/
def saveDosesForUser (userId : String) (doses : List DoseInstance)
    (st : AppState) : AppState :=
  { st with doses :=
      st.doses.filter (fun d => !(d.userId == userId))
        ++ doses.map (fun d => { d with userId := userId }) }

/-- The field update `updateDoseStatus` performs on the matched dose:
`{...dose, status, takenAt: takenAt ?? dose.takenAt}`. -/
def applyStatusUpdate (status : DoseStatus) (takenAt : Option Int)
    (d : DoseInstance) : DoseInstance :=
  { d with
    status := status,
    takenAt := match takenAt with
      | some t => some t
      | none => d.takenAt }

/-- The `findIndex`/assignment pair inside `updateDoseStatus`: update the
first dose matching `(id, userId)`, leaving the list unchanged otherwise. -/
def updateFirstDose (userId doseId : String) (status : DoseStatus)
    (takenAt : Option Int) : List DoseInstance → List DoseInstance
  | [] => []
  | d :: ds =>
      if d.id == doseId && d.userId == userId then
        applyStatusUpdate status takenAt d :: ds
      else
        d :: updateFirstDose userId doseId status takenAt ds

/-- `updateDoseStatus` from `storage.ts`. -/
def updateDoseStatus (userId doseId : String) (status : DoseStatus)
    (takenAt : Option Int) (st : AppState) : AppState :=
  { st with doses := updateFirstDose userId doseId status takenAt st.doses }

/-- `addDoseLog` from `storage.ts`: append with `userId` forced. -/
def addDoseLog (userId : String) (log : DoseLog) (st : AppState) : AppState :=
  { st with doseLogs := st.doseLogs ++ [{ log with userId := userId }] }

/-- `getMedicationInfoCache` from `storage.ts`
(`state.medicationInfoCache[url] || null`). -/
def getMedicationInfoCache (key : String) (st : AppState) :
    Option MedicationInfoCacheEntry :=
  (st.medicationInfoCache.find? (fun e => e.1 == key)).map (fun e => e.2)

/-- Record assignment on the association list: overwrite the first binding of
`key`, or append a new binding. -/
def setAssoc (key : String) (entry : MedicationInfoCacheEntry) :
    List (String × MedicationInfoCacheEntry) → List (String × MedicationInfoCacheEntry)
  | [] => [(key, entry)]
  | kv :: rest =>
      if kv.1 == key then (key, entry) :: rest
      else kv :: setAssoc key entry rest

/-- `setMedicationInfoCache` from `storage.ts`. -/
def setMedicationInfoCache (key : String) (entry : MedicationInfoCacheEntry)
    (st : AppState) : AppState :=
  { st with medicationInfoCache := setAssoc key entry st.medicationInfoCache }

/-- First stored dose matching `(doseId, userId)` — the lookup both
`updateDoseStatus` and the proofs below use to talk about one dose row. -/
def lookupDose (userId doseId : String) (doses : List DoseInstance) :
    Option DoseInstance :=
  doses.find? (fun d => d.id == doseId && d.userId == userId)

/-! ## useReminderScheduler (the dose-lifecycle poller) -/

/-- The snooze guard written in `checkDoses` as
`!dose.snoozedUntil || new Date(dose.snoozedUntil) <= now` (the negation:
the dose carries a snooze timestamp strictly in the future). -/
def snoozeBlocked (now : Int) (d : DoseInstance) : Bool :=
  match d.snoozedUntil with
  | none => false
  | some t => decide (now < t)

/-- The due test of `checkDoses`: status `upcoming`, `|diffMinutes| <= 5`
(i.e. `|now - scheduled| <= 300000` ms) and not snoozed into the future. -/
def dueCheck (now : Int) (d : DoseInstance) : Bool :=
  d.status == DoseStatus.upcoming
    && decide ((now - d.scheduledTime).natAbs ≤ 300000)
    && !snoozeBlocked now d

/-- The missed test of `checkDoses`: status `upcoming`, `diffMinutes > 30`
(i.e. `now - scheduled > 1800000` ms) and not snoozed into the future. -/
def missedCheck (now : Int) (d : DoseInstance) : Bool :=
  d.status == DoseStatus.upcoming
    && decide (now - d.scheduledTime > 1800000)
    && !snoozeBlocked now d

/-- The request body of `sendCaregiverAlert` (`caregiverClient.ts`). -/
structure CaregiverAlertPayload where
  caregiver_name : String
  caregiver_email : String
  patient_name : String
  medication_name : String
  scheduled_time : Int
  status : DoseStatus
  reason : String
deriving DecidableEq, Repr

/-- The alert guard in the missed branch of `checkDoses`:
`med.caregiverAlertEnabled && med.caregiverEmail && med.alertOnMissed`. -/
def missedAlertCond (med : Medication) : Bool :=
  med.caregiverAlertEnabled && optStrTruthy med.caregiverEmail && med.alertOnMissed

/-- The payload built in the missed branch of `checkDoses`. -/
def missedAlertPayload (profileName : String) (med : Medication)
    (d : DoseInstance) : CaregiverAlertPayload :=
  { caregiver_name :=
      match med.caregiverName with
      | some s => if s == "" then "Caregiver" else s
      | none => "Caregiver",
    caregiver_email := med.caregiverEmail.getD "",
    patient_name := profileName,
    medication_name := med.name,
    scheduled_time := d.scheduledTime,
    status := DoseStatus.missed,
    reason := "Automatically detected missed dose." }

/-- The dose log appended in the missed branch of `checkDoses` (the
`Date.now()-Math.random()` id is abstracted to the tick time). -/
def missedLog (now : Int) (userId : String) (d : DoseInstance) : DoseLog :=
  { id := toString now,
    userId := userId,
    medicationId := d.medicationId,
    doseId := d.id,
    status := DoseStatus.missed,
    createdAt := now }

/-- Everything one `checkDoses` tick produces: the stored state after its
synchronous mutations, the surfaced dose and medication (`setDueDose` /
`setCurrentMedication`), and the caregiver-alert dispatches it attempted
(fire-and-forget: their outcomes never flow back into the tick). -/
structure CheckResult where
  state : AppState
  dueDose : Option DoseInstance
  currentMedication : Option Medication
  alerts : List CaregiverAlertPayload
deriving DecidableEq, Repr

/-- `medications.find((m) => m.id === dose.medicationId)` in `checkDoses`. -/
def medFor (meds : List Medication) (d : DoseInstance) : Option Medication :=
  meds.find? (fun m => m.id == d.medicationId)

/-- The `for (const dose of doses)` loop body of `checkDoses`, iterating over
the snapshot list while threading the stored state. A due hit with a known
medication updates the dose, surfaces it and returns (the TS `return`);
a missed hit with a known medication updates the dose, appends a log,
attempts an alert when configured, and continues. -/
def checkLoop (userId profileName : String) (meds : List Medication)
    (now : Int) : List DoseInstance → AppState → CheckResult
  | [], st => ⟨st, none, none, []⟩
  | d :: rest, st =>
      match medFor meds d, dueCheck now d with
      | some med, true =>
          { state := updateDoseStatus userId d.id DoseStatus.due none st,
            dueDose := some { d with status := DoseStatus.due },
            currentMedication := some med,
            alerts := [] }
      | some med, false =>
          if missedCheck now d then
            let st1 := updateDoseStatus userId d.id DoseStatus.missed none st
            let st2 := addDoseLog userId (missedLog now userId d) st1
            let tail := checkLoop userId profileName meds now rest st2
            { tail with alerts :=
                (if missedAlertCond med then [missedAlertPayload profileName med d] else [])
                  ++ tail.alerts }
          else
            checkLoop userId profileName meds now rest st
      | none, _ => checkLoop userId profileName meds now rest st

/-- One tick of `checkDoses` in `useReminderScheduler`: no active profile
means no work; otherwise scan the active profile's doses against its
medications. -/
def checkDoses (now : Int) (st : AppState) : CheckResult :=
  match getActiveProfile st with
  | none => ⟨st, none, none, []⟩
  | some profile =>
      checkLoop profile.id profile.name (getMedicationsForUser profile.id st) now
        (getDosesForUser profile.id st) st

/-- `snoozeDose` in `useReminderScheduler`, acting on the surfaced dose.
The source computes `updatedDose = {...dueDose, snoozedUntil, status:'upcoming'}`
but never stores it: the only persisted effect is
`updateDoseStatus(profile.id, dueDose.id, 'upcoming')`, which writes the
status field alone, so the snooze timestamp never reaches storage. -/
def snoozeDose (userId : String) (dueDose : DoseInstance) (minutes : Int)
    (now : Int) (st : AppState) : AppState :=
  let snoozedUntil : Int := now + minutes * 60000
  let _updatedDose : DoseInstance :=
    { dueDose with snoozedUntil := some snoozedUntil, status := DoseStatus.upcoming }
  updateDoseStatus userId dueDose.id DoseStatus.upcoming none st

/-! ## Drug-info fetch + cache -/

/-- The `/api/drug-info` response shape (`drugInfo.ts`). -/
structure DrugInfoResponse where
  medication_name : String
  source_url : String
  general_markdown : String
  usage_markdown : String
  side_effects_markdown : String
deriving DecidableEq, Repr

/-- Outcome of one backend drug-info call: resolved response or rejection. -/
inductive FetchResult where
  | ok (r : DrugInfoResponse)
  | fail
deriving DecidableEq, Repr

/-- What one opening of the info modal produced: the stored state afterwards,
how many backend network calls it issued, the tab content shown
(general, usage, side effects), and whether an error message was surfaced. -/
structure ModalOutcome where
  state : AppState
  networkCalls : Nat
  shown : Option (String × String × String)
  errorShown : Bool
deriving DecidableEq, Repr

/-- JS `String.prototype.trim`: strip whitespace from both ends. -/
def jsTrim (s : String) : String :=
  ⟨((s.data.dropWhile Char.isWhitespace).reverse.dropWhile Char.isWhitespace).reverse⟩

/-- JS `String.prototype.toLowerCase`, ASCII case folding (medication names
here are ASCII; the full Unicode mapping is irrelevant to every claim). -/
def jsToLower (s : String) : String :=
  ⟨s.data.map Char.toLower⟩

/-- The cache key of the cached `MedicationInfoModal`:
`medicationName.trim().toLowerCase()`. -/
def normalizeCacheKey (name : String) : String :=
  jsToLower (jsTrim name)

/-- The cache-miss path of the cached `MedicationInfoModal`: one
`fetchDrugInfo` call; on success store the three markdown sections under the
normalized key and show them, on failure surface an error and store nothing. -/
def fetchAndStoreDrugInfo (key : String) (now : Int) (backend : FetchResult)
    (st : AppState) : ModalOutcome :=
  match backend with
  | FetchResult.ok r =>
      let entry : MedicationInfoCacheEntry :=
        { url := r.source_url,
          markdown := none,
          general := some r.general_markdown,
          usage := some r.usage_markdown,
          sideEffects := some r.side_effects_markdown,
          fetchedAt := now }
      { state := setMedicationInfoCache key entry st,
        networkCalls := 1,
        shown := some (r.general_markdown, r.usage_markdown, r.side_effects_markdown),
        errorShown := false }
  | FetchResult.fail =>
      { state := st, networkCalls := 1, shown := none, errorShown := true }

/-- The open-effect of the cached `MedicationInfoModal`: reject empty names;
serve from cache when the stored entry has all three sections (or a legacy
single markdown blob); otherwise fetch from the backend and cache the result.
`backend` stands for how the one possible network call would resolve. -/
def openMedicationInfoCached (name : String) (now : Int) (backend : FetchResult)
    (st : AppState) : ModalOutcome :=
  let key := normalizeCacheKey name
  if name == "" || key == "" then
    { state := st, networkCalls := 0, shown := none, errorShown := true }
  else
    match getMedicationInfoCache key st with
    | some c =>
        if optStrTruthy c.general && optStrTruthy c.usage && optStrTruthy c.sideEffects then
          { state := st, networkCalls := 0,
            shown := some (c.general.getD "", c.usage.getD "", c.sideEffects.getD ""),
            errorShown := false }
        else if optStrTruthy c.markdown then
          { state := st, networkCalls := 0,
            shown := some (c.markdown.getD "", c.markdown.getD "", c.markdown.getD ""),
            errorShown := false }
        else
          fetchAndStoreDrugInfo key now backend st
    | none => fetchAndStoreDrugInfo key now backend st

/-- The response handler of `components/MedicationInfoModal.tsx`: a resolved
response with an empty `general_markdown` surfaces the "not found" advisory
instead of content; a non-empty one is displayed; a rejection surfaces a
load-failure message. Returns `(drugInfo, error)` as set by the handler
(content renders only when `drugInfo` is set and `error` is not). -/
def handleDrugInfoResponse (backend : FetchResult) :
    Option DrugInfoResponse × Option String :=
  match backend with
  | FetchResult.ok data =>
      if data.general_markdown == "" then
        (none, some "Information not available. Please check the spelling or ask your pharmacist.")
      else
        (some data, none)
  | FetchResult.fail =>
      (none, some "Failed to load medication information.")

/-! ## add-medication/page.tsx -/

/-- JS `String.prototype.split` with a single-character separator. -/
def splitOnChar (sep : Char) : List Char → List (List Char)
  | [] => [[]]
  | c :: rest =>
      let r := splitOnChar sep rest
      if c == sep then [] :: r
      else
        match r with
        | [] => [[c]]
        | g :: gs => (c :: g) :: gs

/-- JS `Number(...)` on the digit-only `HH`/`MM` pieces the form's
`/^\d{2}:\d{2}$/` validation guarantees. -/
def digitsToNatAux (acc : Nat) : List Char → Nat
  | [] => acc
  | c :: cs => digitsToNatAux (acc * 10 + (c.toNat - 48)) cs

/-- `Number(hStr) * 3600000 + Number(mStr) * 60000` for a validated `"HH:MM"`
string: the millisecond offset `setHours(h, m, 0, 0)` adds to midnight (the
no-colon fallback is unreachable under the form validation). -/
def timeToMs (t : String) : Int :=
  match splitOnChar ':' t.data with
  | h :: m :: _ =>
      (digitsToNatAux 0 h : Int) * 3600000 + (digitsToNatAux 0 m : Int) * 60000
  | _ => 0

/-- The dose-generation loop of `saveMedication`: for every clock time one
dose on the current day (`todayMidnight` = local midnight of "today"),
id `` `${medId}-${timeStr}` ``, status `upcoming`; nothing for `as_needed`. -/
def mkDosesForNewMedication (medId userId : String)
    (frequency : MedicationFrequency) (times : List String)
    (todayMidnight : Int) : List DoseInstance :=
  if frequency == MedicationFrequency.as_needed then []
  else
    times.map (fun t =>
      { id := medId ++ "-" ++ t,
        medicationId := medId,
        userId := userId,
        scheduledTime := todayMidnight + timeToMs t,
        status := DoseStatus.upcoming,
        takenAt := none,
        snoozedUntil := none })

/-- The persistence tail of `saveMedication`: read the user's medications and
doses, build the new medication and its today-doses, then write both lists
back through the storage helpers. Caregiver/presentational form fields are
left at their defaults — no claim depends on them. -/
def saveMedication (userId newMedicationId name doseText : String)
    (frequency : MedicationFrequency) (times : List String)
    (todayMidnight : Int) (st : AppState) : AppState :=
  let meds := getMedicationsForUser userId st
  let doses := getDosesForUser userId st
  let newMedication : Medication :=
    { id := newMedicationId,
      userId := userId,
      name := name,
      dose := doseText,
      frequency := frequency,
      times := if frequency == MedicationFrequency.as_needed then [] else times }
  let newDoses := mkDosesForNewMedication newMedicationId userId frequency times todayMidnight
  let st1 := saveMedicationsForUser userId (meds ++ [newMedication]) st
  saveDosesForUser userId (doses ++ newDoses) st1

/-! ## Specification views of one tick's missed-branch output -/

/-- The dose logs one snapshot dose contributes to a tick on which no dose is
surfaced as due: one `missed` log when the missed test fires and the owning
medication exists, nothing otherwise. -/
def missedLogsFor (meds : List Medication) (now : Int) (userId : String)
    (e : DoseInstance) : List DoseLog :=
  match medFor meds e with
  | some _ => if missedCheck now e then [missedLog now userId e] else []
  | none => []

/-- The caregiver-alert dispatches one snapshot dose contributes to such a
tick: one payload when the missed test fires, the medication exists and the
alert configuration is on, nothing otherwise. -/
def missedAlertsFor (meds : List Medication) (now : Int) (profileName : String)
    (e : DoseInstance) : List CaregiverAlertPayload :=
  match medFor meds e with
  | some med =>
      if missedCheck now e then
        (if missedAlertCond med then [missedAlertPayload profileName med e] else [])
      else []
  | none => []

/-! ## Supporting lemmas: the storage layer -/

theorem updateDoseStatus_profiles (userId doseId : String) (s : DoseStatus)
    (t : Option Int) (st : AppState) :
    (updateDoseStatus userId doseId s t st).profiles = st.profiles := rfl

theorem updateDoseStatus_medications (userId doseId : String) (s : DoseStatus)
    (t : Option Int) (st : AppState) :
    (updateDoseStatus userId doseId s t st).medications = st.medications := rfl

theorem updateDoseStatus_doseLogs (userId doseId : String) (s : DoseStatus)
    (t : Option Int) (st : AppState) :
    (updateDoseStatus userId doseId s t st).doseLogs = st.doseLogs := rfl

theorem updateDoseStatus_cache (userId doseId : String) (s : DoseStatus)
    (t : Option Int) (st : AppState) :
    (updateDoseStatus userId doseId s t st).medicationInfoCache = st.medicationInfoCache := rfl

theorem addDoseLog_doses (userId : String) (log : DoseLog) (st : AppState) :
    (addDoseLog userId log st).doses = st.doses := rfl

theorem addDoseLog_profiles (userId : String) (log : DoseLog) (st : AppState) :
    (addDoseLog userId log st).profiles = st.profiles := rfl

theorem addDoseLog_medications (userId : String) (log : DoseLog) (st : AppState) :
    (addDoseLog userId log st).medications = st.medications := rfl

theorem addDoseLog_cache (userId : String) (log : DoseLog) (st : AppState) :
    (addDoseLog userId log st).medicationInfoCache = st.medicationInfoCache := rfl

theorem addDoseLog_doseLogs (userId : String) (log : DoseLog) (st : AppState) :
    (addDoseLog userId log st).doseLogs = st.doseLogs ++ [{ log with userId := userId }] := rfl

/-- The fields `applyStatusUpdate` never touches. -/
theorem applyStatusUpdate_frame (s : DoseStatus) (t : Option Int) (d : DoseInstance) :
    (applyStatusUpdate s t d).id = d.id ∧
    (applyStatusUpdate s t d).medicationId = d.medicationId ∧
    (applyStatusUpdate s t d).userId = d.userId ∧
    (applyStatusUpdate s t d).scheduledTime = d.scheduledTime ∧
    (applyStatusUpdate s t d).snoozedUntil = d.snoozedUntil :=
  ⟨rfl, rfl, rfl, rfl, rfl⟩

theorem applyStatusUpdate_none (s : DoseStatus) (d : DoseInstance) :
    applyStatusUpdate s none d = { d with status := s } := rfl

/-- A dose matching neither the id nor the user filter of `updateDoseStatus`
is kept verbatim; with no match at all the list is unchanged. -/
theorem updateFirstDose_no_match (userId doseId : String) (s : DoseStatus)
    (t : Option Int) :
    ∀ l : List DoseInstance, (∀ d ∈ l, ¬(d.id = doseId ∧ d.userId = userId)) →
      updateFirstDose userId doseId s t l = l := by
  intro l
  induction l with
  | nil => intro _; rfl
  | cons d ds ih =>
      intro h
      have hd : ¬(d.id == doseId && d.userId == userId) = true := by
        simp only [Bool.and_eq_true, beq_iff_eq]
        exact h d (List.mem_cons_self d ds)
      simp only [updateFirstDose, if_neg hd, List.cons.injEq, true_and]
      exact ih (fun e he => h e (List.mem_cons_of_mem _ he))

/-- `updateDoseStatus` rewrites exactly the first stored dose matching
`(doseId, userId)` and keeps every other list entry in place. -/
theorem updateFirstDose_first_match (userId doseId : String) (s : DoseStatus)
    (t : Option Int) :
    ∀ (l₁ : List DoseInstance) (d : DoseInstance) (l₂ : List DoseInstance),
      (∀ e ∈ l₁, ¬(e.id = doseId ∧ e.userId = userId)) →
      d.id = doseId → d.userId = userId →
      updateFirstDose userId doseId s t (l₁ ++ d :: l₂)
        = l₁ ++ applyStatusUpdate s t d :: l₂ := by
  intro l₁
  induction l₁ with
  | nil =>
      intro d l₂ _ hid huid
      have hd : (d.id == doseId && d.userId == userId) = true := by
        simp [hid, huid]
      simp [updateFirstDose, hd]
  | cons e l₁ ih =>
      intro d l₂ h hid huid
      have he : ¬(e.id == doseId && e.userId == userId) = true := by
        simp only [Bool.and_eq_true, beq_iff_eq]
        exact h e (List.mem_cons_self e l₁)
      simp only [List.cons_append, updateFirstDose, if_neg he, List.cons.injEq, true_and]
      exact ih d l₂ (fun x hx => h x (List.mem_cons_of_mem _ hx)) hid huid

/-- Updating the dose `(doseId, userId)` acts on the `lookupDose` view as
`applyStatusUpdate` on the looked-up row. -/
theorem lookupDose_updateFirstDose_self (userId doseId : String) (s : DoseStatus)
    (t : Option Int) :
    ∀ l : List DoseInstance,
      lookupDose userId doseId (updateFirstDose userId doseId s t l)
        = (lookupDose userId doseId l).map (applyStatusUpdate s t) := by
  intro l
  induction l with
  | nil => rfl
  | cons d ds ih =>
      by_cases hd : (d.id == doseId && d.userId == userId) = true
      · have hd' : ((applyStatusUpdate s t d).id == doseId
            && (applyStatusUpdate s t d).userId == userId) = true := hd
        simp [updateFirstDose, lookupDose, List.find?_cons, hd, hd']
      · have hd' := Bool.of_not_eq_true hd
        simp only [updateFirstDose, if_neg hd]
        simp [lookupDose, List.find?_cons, hd'] at ih ⊢
        exact ih

/-- Updating a dose with a different id leaves the `lookupDose` view of this
one unchanged. -/
theorem lookupDose_updateFirstDose_other (userId userId' doseId doseId' : String)
    (s : DoseStatus) (t : Option Int) (hne : doseId ≠ doseId') :
    ∀ l : List DoseInstance,
      lookupDose userId doseId (updateFirstDose userId' doseId' s t l)
        = lookupDose userId doseId l := by
  intro l
  induction l with
  | nil => rfl
  | cons d ds ih =>
      by_cases hd : (d.id == doseId' && d.userId == userId') = true
      · have hdid : d.id = doseId' := by
          have := (Bool.and_eq_true _ _).mp hd
          exact beq_iff_eq.mp this.1
        have hfalse : (d.id == doseId && d.userId == userId) = false := by
          have h1 : (d.id == doseId) = false := by
            rw [beq_eq_false_iff_ne, hdid]
            exact fun hcontr => hne hcontr.symm
          simp [h1]
        have hfalse' : ((applyStatusUpdate s t d).id == doseId
            && (applyStatusUpdate s t d).userId == userId) = false := hfalse
        simp [updateFirstDose, lookupDose, List.find?_cons, hd, hfalse, hfalse']
      · have hd' := Bool.of_not_eq_true hd
        by_cases hq : (d.id == doseId && d.userId == userId) = true
        · simp [updateFirstDose, lookupDose, List.find?_cons, hd', hq]
        · have hq' := Bool.of_not_eq_true hq
          simp only [updateFirstDose, if_neg hd]
          simp [lookupDose, List.find?_cons, hq'] at ih ⊢
          exact ih

/-- In a user's snapshot with pairwise-distinct dose ids, every snapshot row
is exactly the first `(id, userId)` match in the full store. -/
theorem lookupDose_of_filter_nodup (userId : String) :
    ∀ l : List DoseInstance,
      ((l.filter (fun d => d.userId == userId)).map (fun d => d.id)).Nodup →
      ∀ e ∈ l.filter (fun d => d.userId == userId),
        lookupDose userId e.id l = some e := by
  intro l
  induction l with
  | nil => intro _ e he; simp [List.filter] at he
  | cons d ds ih =>
      intro hnd e he
      by_cases hd : (d.userId == userId) = true
      · rw [List.filter_cons, if_pos hd] at hnd he
        rcases List.mem_cons.mp he with rfl | he'
        · have : (e.id == e.id && e.userId == userId) = true := by simp [hd]
          simp [lookupDose, List.find?_cons, this, hd]
        · have hne : d.id ≠ e.id := by
            simp only [List.map_cons, List.nodup_cons] at hnd
            intro hcontr
            exact hnd.1 (hcontr ▸ List.mem_map_of_mem (fun x => x.id) he')
          have hfalse : (d.id == e.id && d.userId == userId) = false := by
            simp [Bool.and_eq_false_iff]
            intro hcontr
            exact absurd hcontr hne
          have hnd' : ((ds.filter (fun x => x.userId == userId)).map (fun x => x.id)).Nodup := by
            simp only [List.map_cons, List.nodup_cons] at hnd
            exact hnd.2
          simp only [lookupDose, List.find?_cons, hfalse]
          exact ih hnd' e he'
      · have hd' := Bool.of_not_eq_true hd
        rw [List.filter_cons, if_neg hd] at hnd he
        have hfalse : (d.id == e.id && d.userId == userId) = false := by
          simp [hd']
        simp only [lookupDose, List.find?_cons, hfalse]
        exact ih hnd e he

/-! ## Concrete fixtures (used by witnesses and counterexamples) -/

def uA : String := "u1"

def pA : UserProfile := { id := uA, name := "Pat", createdAt := 0, isActive := true }

def pB : UserProfile := { id := "u2", name := "Sam", createdAt := 0, isActive := false }

def mA : Medication :=
  { id := "m1", userId := uA, name := "Aspirin", dose := "100mg",
    frequency := MedicationFrequency.twice, times := [] }

def mB : Medication :=
  { id := "m2", userId := pB.id, name := "Ibuprofen", dose := "200mg",
    frequency := MedicationFrequency.once, times := [] }

/-- Dose scheduled exactly at the reference tick time 2000000 ms. -/
def dDue : DoseInstance :=
  { id := "d1", medicationId := mA.id, userId := uA, scheduledTime := 2000000,
    status := DoseStatus.upcoming }

/-- Dose scheduled 40 minutes before the reference tick time 2000000 ms. -/
def dMiss : DoseInstance :=
  { id := "d2", medicationId := mA.id, userId := uA, scheduledTime := -400000,
    status := DoseStatus.upcoming }

def dB : DoseInstance :=
  { id := "d3", medicationId := mB.id, userId := pB.id, scheduledTime := 0,
    status := DoseStatus.upcoming }

def lgB : DoseLog :=
  { id := "lg1", userId := pB.id, medicationId := mB.id, doseId := dB.id,
    status := DoseStatus.taken, createdAt := 0 }

/-- State in which a due-window dose precedes a missed-window dose of the
same active profile. -/
def stA : AppState :=
  { profiles := [pA], medications := [mA], doses := [dDue, dMiss],
    doseLogs := [], medicationInfoCache := [] }

/-- Two-profile state with data owned by both users. -/
def stAB : AppState :=
  { profiles := [pA, pB], medications := [mA, mB], doses := [dDue, dMiss, dB],
    doseLogs := [lgB], medicationInfoCache := [] }

/-- Activating the stored inactive profile in place through `upsertProfile`. -/
def pBactive : UserProfile := { pB with isActive := true }

/-- A profile with a fresh id, submitted as active. -/
def pC : UserProfile := { id := "u3", name := "Kim", createdAt := 0, isActive := true }

/-- Two stored profiles sharing one id (neither active). -/
def qA : UserProfile := { id := "x", name := "A", createdAt := 0, isActive := false }

def qB : UserProfile := { id := "x", name := "B", createdAt := 0, isActive := false }

def stDup : AppState :=
  { profiles := [qA, qB], medications := [], doses := [], doseLogs := [],
    medicationInfoCache := [] }

/-! ## C10 — updateDoseStatus frame -/

/-- C10: `updateDoseStatus` is a frame-exact single-row update. With no
stored dose matching `(doseId, userId)` the state is completely unchanged;
otherwise exactly the first matching row is rewritten, and the rewrite
touches only its `status` field (and its `takenAt` field only when a value is
supplied) — `id`, `medicationId`, `scheduledTime`, `snoozedUntil`, every
other dose, and the profiles, medications, dose logs and cache are all
untouched; in particular `snoozedUntil` is never set or cleared. -/
theorem claim_C10_updateDoseStatus_frame (userId doseId : String)
    (status : DoseStatus) (takenAt : Option Int) (st : AppState) :
    ((updateDoseStatus userId doseId status takenAt st).profiles = st.profiles
      ∧ (updateDoseStatus userId doseId status takenAt st).medications = st.medications
      ∧ (updateDoseStatus userId doseId status takenAt st).doseLogs = st.doseLogs
      ∧ (updateDoseStatus userId doseId status takenAt st).medicationInfoCache
          = st.medicationInfoCache)
    ∧ ((∀ d ∈ st.doses, ¬(d.id = doseId ∧ d.userId = userId)) →
        updateDoseStatus userId doseId status takenAt st = st)
    ∧ (∀ (l₁ : List DoseInstance) (d : DoseInstance) (l₂ : List DoseInstance),
        st.doses = l₁ ++ d :: l₂ →
        (∀ e ∈ l₁, ¬(e.id = doseId ∧ e.userId = userId)) →
        d.id = doseId → d.userId = userId →
        (updateDoseStatus userId doseId status takenAt st).doses
          = l₁ ++ applyStatusUpdate status takenAt d :: l₂)
    ∧ (∀ d : DoseInstance,
        (applyStatusUpdate status takenAt d).id = d.id
        ∧ (applyStatusUpdate status takenAt d).medicationId = d.medicationId
        ∧ (applyStatusUpdate status takenAt d).userId = d.userId
        ∧ (applyStatusUpdate status takenAt d).scheduledTime = d.scheduledTime
        ∧ (applyStatusUpdate status takenAt d).snoozedUntil = d.snoozedUntil
        ∧ (applyStatusUpdate status takenAt d).status = status
        ∧ (takenAt = none → (applyStatusUpdate status takenAt d).takenAt = d.takenAt)
        ∧ (∀ x : Int, takenAt = some x →
            (applyStatusUpdate status takenAt d).takenAt = some x)) := by
  refine ⟨⟨rfl, rfl, rfl, rfl⟩, ?_, ?_, ?_⟩
  · intro h
    show { st with doses := updateFirstDose userId doseId status takenAt st.doses } = st
    rw [updateFirstDose_no_match userId doseId status takenAt st.doses h]
  · intro l₁ d l₂ hsplit h hid huid
    show updateFirstDose userId doseId status takenAt st.doses = _
    rw [hsplit]
    exact updateFirstDose_first_match userId doseId status takenAt l₁ d l₂ h hid huid
  · intro d
    refine ⟨rfl, rfl, rfl, rfl, rfl, rfl, ?_, ?_⟩
    · intro h; subst h; rfl
    · intro x h; subst h; rfl

/-- Witness for C10: in the concrete two-dose store, updating the second dose
rewrites exactly that row. -/
theorem claim_C10_witness :
    (updateDoseStatus uA (dMiss.id) DoseStatus.taken none stA).doses
      = [dDue] ++ applyStatusUpdate DoseStatus.taken none dMiss :: [] := by
  have h := (claim_C10_updateDoseStatus_frame uA (dMiss.id) DoseStatus.taken none stA).2.2.1
  exact h [dDue] dMiss [] rfl (by decide) rfl rfl

/-! ## C6 — deleteProfile cascade and frame -/

/-- Filtering a user's rows is unaffected by first deleting a different
user's rows. -/
theorem filter_proj_after_exclude {α : Type} (f : α → String) (userId profileId : String)
    (h : userId ≠ profileId) :
    ∀ l : List α,
      (l.filter (fun x => !(f x == profileId))).filter (fun x => f x == userId)
        = l.filter (fun x => f x == userId) := by
  intro l
  induction l with
  | nil => rfl
  | cons a t ih =>
      by_cases ha : (f a == profileId) = true
      · have hu : (f a == userId) = false := by
          rw [beq_eq_false_iff_ne]
          rw [beq_iff_eq] at ha
          rw [ha]
          exact fun hc => h hc.symm
        simp [List.filter_cons, ha, hu, ih]
      · have ha' := Bool.of_not_eq_true ha
        simp [List.filter_cons, ha', ih]

/-- C6: `deleteProfile` removes the profile and exactly the medications,
doses and dose logs owned by the deleted profile id, leaves the info cache
untouched, and leaves every other user's medication, dose and log views
unchanged. -/
theorem claim_C6_deleteProfile_cascade (profileId : String) (st : AppState) :
    (∀ p : UserProfile,
        p ∈ (deleteProfile profileId st).profiles ↔ p ∈ st.profiles ∧ p.id ≠ profileId)
    ∧ (∀ m : Medication,
        m ∈ (deleteProfile profileId st).medications ↔ m ∈ st.medications ∧ m.userId ≠ profileId)
    ∧ (∀ d : DoseInstance,
        d ∈ (deleteProfile profileId st).doses ↔ d ∈ st.doses ∧ d.userId ≠ profileId)
    ∧ (∀ log : DoseLog,
        log ∈ (deleteProfile profileId st).doseLogs ↔ log ∈ st.doseLogs ∧ log.userId ≠ profileId)
    ∧ (deleteProfile profileId st).medicationInfoCache = st.medicationInfoCache
    ∧ (∀ userId : String, userId ≠ profileId →
        getMedicationsForUser userId (deleteProfile profileId st)
            = getMedicationsForUser userId st
        ∧ getDosesForUser userId (deleteProfile profileId st)
            = getDosesForUser userId st
        ∧ (deleteProfile profileId st).doseLogs.filter (fun lg => lg.userId == userId)
            = st.doseLogs.filter (fun lg => lg.userId == userId)) := by
  refine ⟨?_, ?_, ?_, ?_, rfl, ?_⟩
  · intro p
    simp [deleteProfile, List.mem_filter]
  · intro m
    simp [deleteProfile, List.mem_filter]
  · intro d
    simp [deleteProfile, List.mem_filter]
  · intro log
    simp [deleteProfile, List.mem_filter]
  · intro userId hne
    refine ⟨?_, ?_, ?_⟩
    · exact filter_proj_after_exclude (fun m : Medication => m.userId) userId profileId hne
        st.medications
    · exact filter_proj_after_exclude (fun d : DoseInstance => d.userId) userId profileId hne
        st.doses
    · exact filter_proj_after_exclude (fun lg : DoseLog => lg.userId) userId profileId hne
        st.doseLogs

/-- Witness for C6: deleting the first fixture profile leaves the second
profile's medication, dose and log views unchanged. -/
theorem claim_C6_witness :
    getMedicationsForUser (pB.id) (deleteProfile (pA.id) stAB)
        = getMedicationsForUser (pB.id) stAB
    ∧ getDosesForUser (pB.id) (deleteProfile (pA.id) stAB)
        = getDosesForUser (pB.id) stAB := by
  have h := (claim_C6_deleteProfile_cascade (pA.id) stAB).2.2.2.2.2 (pB.id) (by decide)
  exact ⟨h.1, h.2.1⟩

/-! ## C5 — the at-most-one-active-profile invariant -/

/-- Number of profiles flagged active. -/
def activeCount (ps : List UserProfile) : Nat :=
  ps.countP (fun p => p.isActive)

/-- With pairwise-distinct ids, at most one profile matches a given id. -/
theorem countP_id_le_one (profileId : String) :
    ∀ ps : List UserProfile, (ps.map (fun p => p.id)).Nodup →
      ps.countP (fun p => p.id == profileId) ≤ 1 := by
  intro ps
  induction ps with
  | nil => intro _; simp [List.countP_nil]
  | cons a t ih =>
      intro hnd
      simp only [List.map_cons, List.nodup_cons] at hnd
      rw [List.countP_cons]
      by_cases ha : (a.id == profileId) = true
      · have ht : t.countP (fun p => p.id == profileId) = 0 := by
          rw [List.countP_eq_zero]
          intro q hq hcontr
          apply hnd.1
          rw [beq_iff_eq] at ha hcontr
          rw [ha, ← hcontr]
          exact List.mem_map_of_mem (fun p => p.id) hq
        simp [ht, ha]
      · have ha' := Bool.of_not_eq_true ha
        have := ih hnd.2
        simp [ha']
        omega

/-- The deactivate-all-then-append list of `upsertProfile`'s insert branch
always has at most one active profile. -/
theorem activeCount_deactivate_append (p : UserProfile) (ps : List UserProfile) :
    activeCount ((ps.map (fun q => { q with isActive := false })) ++ [p]) ≤ 1 := by
  unfold activeCount
  rw [List.countP_append, List.countP_map]
  have h0 : ps.countP ((fun q : UserProfile => q.isActive)
      ∘ (fun q => { q with isActive := false })) = 0 := by
    rw [List.countP_eq_zero]
    intro q _
    simp [Function.comp]
  rw [h0]
  by_cases hp : p.isActive = true <;> simp [List.countP_cons, hp]

/-- `activeCount` over a cons cell. -/
theorem activeCount_cons (a : UserProfile) (t : List UserProfile) :
    activeCount (a :: t) = activeCount t + if a.isActive = true then 1 else 0 :=
  List.countP_cons _ a t

/-- Replacing a profile by an inactive one can only lower the active count. -/
theorem activeCount_replaceFirst_inactive (p : UserProfile)
    (hp : p.isActive = false) :
    ∀ ps : List UserProfile,
      activeCount (replaceFirstProfile p ps) ≤ activeCount ps := by
  intro ps
  induction ps with
  | nil => simp [replaceFirstProfile]
  | cons a t ih =>
      by_cases ha : (a.id == p.id) = true
      · rw [replaceFirstProfile, if_pos ha, activeCount_cons, activeCount_cons, hp]
        by_cases haact : a.isActive = true <;> simp [haact]
      · rw [replaceFirstProfile, if_neg ha, activeCount_cons, activeCount_cons]
        omega

/-- The overwrite branch of `upsertProfile` preserves the invariant when the
submitted profile is inactive, or when every stored active profile already
carries the submitted id. -/
theorem activeCount_replaceFirst (p : UserProfile) :
    ∀ ps : List UserProfile,
      (ps.map (fun q => q.id)).Nodup →
      activeCount ps ≤ 1 →
      (p.isActive = true → ∀ q ∈ ps, q.isActive = true → q.id = p.id) →
      activeCount (replaceFirstProfile p ps) ≤ 1 := by
  intro ps
  induction ps with
  | nil => intro _ _ _; simp [replaceFirstProfile, activeCount]
  | cons a t ih =>
      intro hnd hcount hcond
      simp only [List.map_cons, List.nodup_cons] at hnd
      rw [activeCount_cons] at hcount
      by_cases ha : (a.id == p.id) = true
      · rw [replaceFirstProfile, if_pos ha, activeCount_cons]
        by_cases hp : p.isActive = true
        · have ht : activeCount t = 0 := by
            unfold activeCount
            rw [List.countP_eq_zero]
            intro q hq hcontr
            apply hnd.1
            have hqid : q.id = p.id := hcond hp q (List.mem_cons_of_mem _ hq) hcontr
            rw [beq_iff_eq] at ha
            rw [ha, ← hqid]
            exact List.mem_map_of_mem (fun x => x.id) hq
          rw [ht, hp]
          simp
        · have hp' := Bool.of_not_eq_true hp
          simp only [hp', if_neg]
          simp
          omega
      · rw [replaceFirstProfile, if_neg ha, activeCount_cons]
        by_cases haact : a.isActive = true
        · have hp' : p.isActive = false := by
            rcases Bool.eq_false_or_eq_true p.isActive with h | h
            · exfalso
              apply ha
              rw [beq_iff_eq]
              exact hcond h a (List.mem_cons_self a t) haact
            · exact h
          have hrep := activeCount_replaceFirst_inactive p hp' t
          simp only [haact, if_true] at hcount ⊢
          omega
        · have haact' := Bool.of_not_eq_true haact
          simp only [haact'] at hcount ⊢
          simp at hcount ⊢
          have := ih hnd.2 (by omega)
            (fun hp q hq hact => hcond hp q (List.mem_cons_of_mem _ hq) hact)
          omega

/-- C5 fails as stated: overwriting a stored inactive profile with an active
copy through `upsertProfile` leaves two active profiles, and with two stored
profiles sharing an id `setActiveProfile` activates both. -/
theorem claim_C5_counterexample :
    activeCount ((upsertProfile pBactive stAB).profiles) = 2
    ∧ activeCount ((setActiveProfile (qA.id) stDup).profiles) = 2 := by
  constructor <;> decide

/-- C5 (amended): `setActiveProfile` yields at most one active profile on any
store with pairwise-distinct profile ids; `upsertProfile` preserves the
invariant when the submitted id is new (unconditionally), and when it
overwrites an existing profile provided the submitted profile is not flagged
active while a different stored profile is active; `deleteProfile` always
preserves the invariant. -/
theorem claim_C5_amended :
    (∀ (profileId : String) (st : AppState),
        (st.profiles.map (fun p => p.id)).Nodup →
        activeCount ((setActiveProfile profileId st).profiles) ≤ 1)
    ∧ (∀ (p : UserProfile) (st : AppState),
        (∀ q ∈ st.profiles, q.id ≠ p.id) →
        activeCount ((upsertProfile p st).profiles) ≤ 1)
    ∧ (∀ (p : UserProfile) (st : AppState),
        (st.profiles.map (fun q => q.id)).Nodup →
        activeCount st.profiles ≤ 1 →
        (p.isActive = true → ∀ q ∈ st.profiles, q.isActive = true → q.id = p.id) →
        activeCount ((upsertProfile p st).profiles) ≤ 1)
    ∧ (∀ (profileId : String) (st : AppState),
        activeCount st.profiles ≤ 1 →
        activeCount ((deleteProfile profileId st).profiles) ≤ 1) := by
  refine ⟨?_, ?_, ?_, ?_⟩
  · intro profileId st hnd
    have h := countP_id_le_one profileId st.profiles hnd
    unfold activeCount setActiveProfile
    simp only [List.countP_map]
    exact h
  · intro p st h
    have hany : (st.profiles.any (fun q => q.id == p.id)) = false := by
      rw [List.any_eq_false]
      intro q hq
      simp only [beq_iff_eq]
      exact h q hq
    rw [upsertProfile, hany]
    simp only [Bool.false_eq_true, if_false]
    exact activeCount_deactivate_append p st.profiles
  · intro p st hnd hcount hcond
    by_cases hany : (st.profiles.any (fun q => q.id == p.id)) = true
    · rw [upsertProfile, hany]
      simp only [if_true]
      exact activeCount_replaceFirst p st.profiles hnd hcount hcond
    · rw [upsertProfile, Bool.of_not_eq_true hany]
      simp only [Bool.false_eq_true, if_false]
      exact activeCount_deactivate_append p st.profiles
  · intro profileId st hcount
    have hsub : activeCount ((deleteProfile profileId st).profiles)
        ≤ activeCount st.profiles := by
      unfold activeCount deleteProfile
      exact (List.filter_sublist st.profiles).countP_le (fun p => p.isActive)
    omega

/-- Witness for C5 (amended): each conjunct applied on the concrete fixture
store. -/
theorem claim_C5_witness :
    activeCount ((setActiveProfile (pB.id) stAB).profiles) ≤ 1
    ∧ activeCount ((upsertProfile pC stAB).profiles) ≤ 1
    ∧ activeCount ((upsertProfile pA stAB).profiles) ≤ 1
    ∧ activeCount ((deleteProfile (pA.id) stAB).profiles) ≤ 1 := by
  have h := claim_C5_amended
  exact ⟨h.1 (pB.id) stAB (by decide),
    h.2.1 pC stAB (by decide),
    h.2.2.1 pA stAB (by decide) (by decide) (by decide),
    h.2.2.2 (pA.id) stAB (by decide)⟩

/-! ## C2 — the missed threshold is strictly greater than 30 minutes -/

/-- C2: for an upcoming, unsnoozed dose of the active profile, a tick
evaluated while `now - scheduled` is at most 30 minutes (1800000 ms) — in
particular at 30 minutes minus any epsilon — changes nothing, and a tick
evaluated when `now - scheduled` exceeds 30 minutes marks the dose missed and
appends one missed log: the threshold is strictly greater than 30 minutes.
(The sub-window bound `300000 < now - scheduled` keeps the dose outside the
±5-minute due window, where the missed transition is not at issue.) -/
theorem claim_C2_missed_threshold (st : AppState) (profile : UserProfile)
    (med : Medication) (d : DoseInstance) (now : Int)
    (hactive : getActiveProfile st = some profile)
    (hdoses : getDosesForUser profile.id st = [d])
    (hmeds : getMedicationsForUser profile.id st = [med])
    (hmed : med.id = d.medicationId)
    (hstatus : d.status = DoseStatus.upcoming)
    (hsnooze : d.snoozedUntil = none) :
    ((300000 < now - d.scheduledTime ∧ now - d.scheduledTime ≤ 1800000) →
        checkDoses now st = ⟨st, none, none, []⟩)
    ∧ (1800000 < now - d.scheduledTime →
        lookupDose profile.id d.id (checkDoses now st).state.doses
            = some { d with status := DoseStatus.missed }
        ∧ (checkDoses now st).state.doseLogs
            = st.doseLogs ++ [missedLog now profile.id d]) := by
  have hmedFor : medFor [med] d = some med := by
    simp [medFor, hmed]
  have hres : checkDoses now st
      = checkLoop profile.id profile.name [med] now [d] st := by
    simp only [checkDoses, hactive, hdoses, hmeds]
  constructor
  · rintro ⟨h1, h2⟩
    have hdue : dueCheck now d = false := by
      simp [dueCheck, hstatus, hsnooze, snoozeBlocked]
      omega
    have hmiss : missedCheck now d = false := by
      simp [missedCheck, hstatus, hsnooze, snoozeBlocked]
      omega
    rw [hres]
    simp [checkLoop, hmedFor, hdue, hmiss]
  · intro h
    have hdue : dueCheck now d = false := by
      simp [dueCheck, hstatus, hsnooze, snoozeBlocked]
      omega
    have hmiss : missedCheck now d = true := by
      simp [missedCheck, hstatus, hsnooze, snoozeBlocked]
      omega
    have hloop : checkLoop profile.id profile.name [med] now [d] st
        = { state := addDoseLog profile.id (missedLog now profile.id d)
              (updateDoseStatus profile.id d.id DoseStatus.missed none st),
            dueDose := none,
            currentMedication := none,
            alerts := if missedAlertCond med
              then [missedAlertPayload profile.name med d] else [] } := by
      simp [checkLoop, hmedFor, hdue, hmiss]
    have hlook : lookupDose profile.id d.id st.doses = some d := by
      have hfilter : st.doses.filter (fun x => x.userId == profile.id) = [d] := hdoses
      refine lookupDose_of_filter_nodup profile.id st.doses ?_ d ?_
      · rw [hfilter]; simp
      · rw [hfilter]; simp
    rw [hres, hloop]
    constructor
    · show lookupDose profile.id d.id
          (updateFirstDose profile.id d.id DoseStatus.missed none st.doses) = _
      rw [lookupDose_updateFirstDose_self, hlook]
      simp [applyStatusUpdate_none]
    · show (updateDoseStatus profile.id d.id DoseStatus.missed none st).doseLogs
          ++ [{ missedLog now profile.id d with userId := profile.id }] = _
      rw [updateDoseStatus_doseLogs]
      rfl

/-- Single-dose fixture state for the threshold witness. -/
def stC2 : AppState :=
  { profiles := [pA], medications := [mA], doses := [dMiss],
    doseLogs := [], medicationInfoCache := [] }

/-- Witness for C2: at 1000000 ms the 40-minute-old fixture dose is about 23
minutes past — nothing happens; at 2000000 ms it is 40 minutes past — it is
marked missed. -/
theorem claim_C2_witness :
    checkDoses 1000000 stC2 = ⟨stC2, none, none, []⟩
    ∧ lookupDose (pA.id) (dMiss.id) (checkDoses 2000000 stC2).state.doses
        = some { dMiss with status := DoseStatus.missed } := by
  have h1 := (claim_C2_missed_threshold stC2 pA mA dMiss 1000000
    (by decide) (by decide) (by decide) (by decide) (by decide) (by decide)).1
  have h2 := (claim_C2_missed_threshold stC2 pA mA dMiss 2000000
    (by decide) (by decide) (by decide) (by decide) (by decide) (by decide)).2
  exact ⟨h1 (by decide), (h2 (by decide)).1⟩

/-! ## Step equations for the poller loop -/

/-- Loop step: due hit with a known medication — update, surface, return. -/
theorem checkLoop_cons_due (userId profileName : String) (meds : List Medication)
    (now : Int) (d : DoseInstance) (med : Medication)
    (hmed : medFor meds d = some med) (hdue : dueCheck now d = true)
    (rest : List DoseInstance) (st : AppState) :
    checkLoop userId profileName meds now (d :: rest) st
      = { state := updateDoseStatus userId d.id DoseStatus.due none st,
          dueDose := some { d with status := DoseStatus.due },
          currentMedication := some med,
          alerts := [] } := by
  simp [checkLoop, hmed, hdue]

/-- Loop step: unknown medication — the dose is skipped entirely. -/
theorem checkLoop_cons_nomed (userId profileName : String) (meds : List Medication)
    (now : Int) (d : DoseInstance)
    (hmed : medFor meds d = none)
    (rest : List DoseInstance) (st : AppState) :
    checkLoop userId profileName meds now (d :: rest) st
      = checkLoop userId profileName meds now rest st := by
  simp [checkLoop, hmed]

/-- Loop step: missed hit with a known medication — update, log, attempt the
configured alert, continue. -/
theorem checkLoop_cons_missed (userId profileName : String) (meds : List Medication)
    (now : Int) (d : DoseInstance) (med : Medication)
    (hmed : medFor meds d = some med) (hdue : dueCheck now d = false)
    (hmiss : missedCheck now d = true)
    (rest : List DoseInstance) (st : AppState) :
    checkLoop userId profileName meds now (d :: rest) st
      = { checkLoop userId profileName meds now rest
            (addDoseLog userId (missedLog now userId d)
              (updateDoseStatus userId d.id DoseStatus.missed none st)) with
          alerts :=
            (if missedAlertCond med then [missedAlertPayload profileName med d] else [])
              ++ (checkLoop userId profileName meds now rest
                    (addDoseLog userId (missedLog now userId d)
                      (updateDoseStatus userId d.id DoseStatus.missed none st))).alerts } := by
  simp [checkLoop, hmed, hdue, hmiss]

/-- Loop step: known medication, neither due nor missed — continue unchanged. -/
theorem checkLoop_cons_idle (userId profileName : String) (meds : List Medication)
    (now : Int) (d : DoseInstance) (med : Medication)
    (hmed : medFor meds d = some med) (hdue : dueCheck now d = false)
    (hmiss : missedCheck now d = false)
    (rest : List DoseInstance) (st : AppState) :
    checkLoop userId profileName meds now (d :: rest) st
      = checkLoop userId profileName meds now rest st := by
  simp [checkLoop, hmed, hdue, hmiss]

/-- The scan surfaces the first due-eligible dose it reaches, marks exactly
that dose `due` in the store, and ignores everything after it: the loop's
result over `l₁ ++ d :: l₂` equals its result over `l₁ ++ [d]`. -/
theorem checkLoop_stops_at_due (userId profileName : String)
    (meds : List Medication) (now : Int) :
    ∀ (l₁ : List DoseInstance) (d : DoseInstance) (l₂ : List DoseInstance)
      (st : AppState) (med : Medication),
      (∀ e ∈ l₁, dueCheck now e = false) →
      (∀ e ∈ l₁, e.id ≠ d.id) →
      lookupDose userId d.id st.doses = some d →
      dueCheck now d = true →
      medFor meds d = some med →
      (checkLoop userId profileName meds now (l₁ ++ d :: l₂) st).dueDose
          = some { d with status := DoseStatus.due }
      ∧ (checkLoop userId profileName meds now (l₁ ++ d :: l₂) st).currentMedication
          = some med
      ∧ lookupDose userId d.id
            (checkLoop userId profileName meds now (l₁ ++ d :: l₂) st).state.doses
          = some { d with status := DoseStatus.due }
      ∧ checkLoop userId profileName meds now (l₁ ++ d :: l₂) st
          = checkLoop userId profileName meds now (l₁ ++ [d]) st := by
  intro l₁
  induction l₁ with
  | nil =>
      intro d l₂ st med _ _ hlook hdue hmed
      rw [List.nil_append, List.nil_append,
        checkLoop_cons_due userId profileName meds now d med hmed hdue l₂ st,
        checkLoop_cons_due userId profileName meds now d med hmed hdue [] st]
      refine ⟨rfl, rfl, ?_, rfl⟩
      show lookupDose userId d.id
          (updateFirstDose userId d.id DoseStatus.due none st.doses) = _
      rw [lookupDose_updateFirstDose_self, hlook]
      simp [applyStatusUpdate_none]
  | cons e t ih =>
      intro d l₂ st med hdue1 hne1 hlook hdue hmed
      have hde : dueCheck now e = false := hdue1 e (List.mem_cons_self e t)
      have hdne : e.id ≠ d.id := hne1 e (List.mem_cons_self e t)
      have hdue1' : ∀ x ∈ t, dueCheck now x = false :=
        fun x hx => hdue1 x (List.mem_cons_of_mem _ hx)
      have hne1' : ∀ x ∈ t, x.id ≠ d.id :=
        fun x hx => hne1 x (List.mem_cons_of_mem _ hx)
      cases hmede : medFor meds e with
      | none =>
          rw [List.cons_append, List.cons_append,
            checkLoop_cons_nomed userId profileName meds now e hmede _ st,
            checkLoop_cons_nomed userId profileName meds now e hmede _ st]
          exact ih d l₂ st med hdue1' hne1' hlook hdue hmed
      | some me =>
          by_cases hmisse : missedCheck now e = true
          · have hlook2 : lookupDose userId d.id
                (addDoseLog userId (missedLog now userId e)
                  (updateDoseStatus userId e.id DoseStatus.missed none st)).doses
                = some d := by
              rw [addDoseLog_doses]
              show lookupDose userId d.id
                  (updateFirstDose userId e.id DoseStatus.missed none st.doses) = _
              rw [lookupDose_updateFirstDose_other userId userId d.id e.id
                DoseStatus.missed none (fun hc => hdne hc.symm), hlook]
            have hrec := ih d l₂
              (addDoseLog userId (missedLog now userId e)
                (updateDoseStatus userId e.id DoseStatus.missed none st)) med
              hdue1' hne1' hlook2 hdue hmed
            rw [List.cons_append, List.cons_append,
              checkLoop_cons_missed userId profileName meds now e me hmede hde hmisse _ st,
              checkLoop_cons_missed userId profileName meds now e me hmede hde hmisse _ st]
            refine ⟨hrec.1, hrec.2.1, hrec.2.2.1, ?_⟩
            rw [hrec.2.2.2]
          · have hmisse' : missedCheck now e = false := Bool.of_not_eq_true hmisse
            rw [List.cons_append, List.cons_append,
              checkLoop_cons_idle userId profileName meds now e me hmede hde hmisse' _ st,
              checkLoop_cons_idle userId profileName meds now e me hmede hde hmisse' _ st]
            exact ih d l₂ st med hdue1' hne1' hlook hdue hmed

/-! ## C1 — first due match wins and stops the scan -/

/-- C1: on a tick for the active profile, with the snapshot split as
`l₁ ++ d :: l₂` where `d` is the first dose passing the due test (upcoming,
within ±5 minutes, not snoozed into the future), the tick surfaces exactly
`d` (with status `due`) together with its medication, persists `d`'s status
as `due`, and the scan stops at `d`: the tick's whole result is the same as
if the doses after `d` did not exist. Dose ids are assumed pairwise distinct
(the app generates them uniquely). -/
theorem claim_C1_first_due_surfaced (st : AppState) (profile : UserProfile)
    (now : Int) (l₁ : List DoseInstance) (d : DoseInstance)
    (l₂ : List DoseInstance) (med : Medication)
    (hactive : getActiveProfile st = some profile)
    (hsplit : getDosesForUser profile.id st = l₁ ++ d :: l₂)
    (hfirst : ∀ e ∈ l₁, dueCheck now e = false)
    (hdue : dueCheck now d = true)
    (hmed : medFor (getMedicationsForUser profile.id st) d = some med)
    (hnd : ((getDosesForUser profile.id st).map (fun x => x.id)).Nodup) :
    (checkDoses now st).dueDose = some { d with status := DoseStatus.due }
    ∧ (checkDoses now st).currentMedication = some med
    ∧ lookupDose profile.id d.id (checkDoses now st).state.doses
        = some { d with status := DoseStatus.due }
    ∧ checkDoses now st
        = checkLoop profile.id profile.name (getMedicationsForUser profile.id st)
            now (l₁ ++ [d]) st := by
  have hres : checkDoses now st
      = checkLoop profile.id profile.name (getMedicationsForUser profile.id st)
          now (l₁ ++ d :: l₂) st := by
    simp only [checkDoses, hactive, hsplit]
  have hlook : lookupDose profile.id d.id st.doses = some d := by
    refine lookupDose_of_filter_nodup profile.id st.doses hnd d ?_
    show d ∈ getDosesForUser profile.id st
    rw [hsplit]
    exact List.mem_append_right l₁ (List.mem_cons_self d l₂)
  have hne : ∀ e ∈ l₁, e.id ≠ d.id := by
    rw [hsplit, List.map_append] at hnd
    intro e he hcontr
    have hdisj := (List.nodup_append.mp hnd).2.2
    have h1 : e.id ∈ l₁.map (fun x => x.id) := List.mem_map_of_mem _ he
    have h2 : e.id ∈ (d :: l₂).map (fun x => x.id) := by
      rw [hcontr]
      simp
    exact hdisj h1 h2
  have hstops := checkLoop_stops_at_due profile.id profile.name
    (getMedicationsForUser profile.id st) now l₁ d l₂ st med hfirst hne hlook hdue hmed
  rw [hres]
  exact hstops

/-- Witness for C1: in the fixture store the due-window dose is surfaced with
status `due` while the later missed-window dose is ignored. -/
theorem claim_C1_witness :
    (checkDoses 2000000 stA).dueDose = some { dDue with status := DoseStatus.due }
    ∧ lookupDose (pA.id) (dDue.id) (checkDoses 2000000 stA).state.doses
        = some { dDue with status := DoseStatus.due } := by
  have h := claim_C1_first_due_surfaced stA pA 2000000 [] dDue [dMiss] mA
    (by decide) (by decide) (by decide) (by decide) (by decide) (by decide)
  exact ⟨h.1, h.2.2.1⟩

/-! ## C3 — the missed transition, its log and its alert -/

/-- On a tick whose snapshot contains no due-eligible dose with a known
medication, the loop surfaces nothing and its logs and alert dispatches are
exactly the per-dose contributions `missedLogsFor` / `missedAlertsFor`, in
iteration order; profiles, medications and the cache are untouched. -/
theorem checkLoop_no_due (userId profileName : String) (meds : List Medication)
    (now : Int) :
    ∀ (l : List DoseInstance) (st : AppState),
      (∀ e ∈ l, dueCheck now e = true → medFor meds e = none) →
      (checkLoop userId profileName meds now l st).dueDose = none
      ∧ (checkLoop userId profileName meds now l st).currentMedication = none
      ∧ (checkLoop userId profileName meds now l st).state.doseLogs
          = st.doseLogs ++ l.flatMap (missedLogsFor meds now userId)
      ∧ (checkLoop userId profileName meds now l st).alerts
          = l.flatMap (missedAlertsFor meds now profileName)
      ∧ (checkLoop userId profileName meds now l st).state.profiles = st.profiles
      ∧ (checkLoop userId profileName meds now l st).state.medications = st.medications
      ∧ (checkLoop userId profileName meds now l st).state.medicationInfoCache
          = st.medicationInfoCache := by
  intro l
  induction l with
  | nil =>
      intro st _
      simp [checkLoop]
  | cons e t ih =>
      intro st hnodue
      have hnodue' : ∀ x ∈ t, dueCheck now x = true → medFor meds x = none :=
        fun x hx => hnodue x (List.mem_cons_of_mem _ hx)
      cases hmede : medFor meds e with
      | none =>
          have hlogs : missedLogsFor meds now userId e = [] := by
            simp [missedLogsFor, hmede]
          have halerts : missedAlertsFor meds now profileName e = [] := by
            simp [missedAlertsFor, hmede]
          rw [checkLoop_cons_nomed userId profileName meds now e hmede t st]
          have := ih st hnodue'
          simp [List.flatMap_cons, hlogs, halerts, this]
      | some me =>
          have hde : dueCheck now e = false := by
            rcases Bool.eq_false_or_eq_true (dueCheck now e) with h | h
            · rw [hnodue e (List.mem_cons_self e t) h] at hmede
              exact absurd hmede (by simp)
            · exact h
          by_cases hmisse : missedCheck now e = true
          · have hlogs : missedLogsFor meds now userId e = [missedLog now userId e] := by
              simp [missedLogsFor, hmede, hmisse]
            have halerts : missedAlertsFor meds now profileName e
                = (if missedAlertCond me
                    then [missedAlertPayload profileName me e] else []) := by
              simp [missedAlertsFor, hmede, hmisse]
            rw [checkLoop_cons_missed userId profileName meds now e me hmede hde hmisse t st]
            have hrec := ih (addDoseLog userId (missedLog now userId e)
              (updateDoseStatus userId e.id DoseStatus.missed none st)) hnodue'
            have hlog2 : (addDoseLog userId (missedLog now userId e)
                (updateDoseStatus userId e.id DoseStatus.missed none st)).doseLogs
                = st.doseLogs ++ [missedLog now userId e] := by
              rw [addDoseLog_doseLogs, updateDoseStatus_doseLogs]
              rfl
            refine ⟨hrec.1, hrec.2.1, ?_, ?_, hrec.2.2.2.2.1, hrec.2.2.2.2.2.1,
              hrec.2.2.2.2.2.2⟩
            · show (checkLoop userId profileName meds now t _).state.doseLogs = _
              rw [hrec.2.2.1, hlog2, List.flatMap_cons, hlogs]
              simp
            · show (if missedAlertCond me
                  then [missedAlertPayload profileName me e] else [])
                  ++ (checkLoop userId profileName meds now t _).alerts = _
              rw [hrec.2.2.2.1, List.flatMap_cons, halerts]
          · have hmisse' : missedCheck now e = false := Bool.of_not_eq_true hmisse
            have hlogs : missedLogsFor meds now userId e = [] := by
              simp [missedLogsFor, hmede, hmisse']
            have halerts : missedAlertsFor meds now profileName e = [] := by
              simp [missedAlertsFor, hmede, hmisse']
            rw [checkLoop_cons_idle userId profileName meds now e me hmede hde hmisse' t st]
            have := ih st hnodue'
            simp [List.flatMap_cons, hlogs, halerts, this]

/-- The loop never rewrites a dose row whose id does not occur in its
iteration list. -/
theorem checkLoop_lookup_untouched (userId profileName : String)
    (meds : List Medication) (now : Int) (doseId : String) :
    ∀ (l : List DoseInstance) (st : AppState),
      (∀ e ∈ l, e.id ≠ doseId) →
      lookupDose userId doseId
          (checkLoop userId profileName meds now l st).state.doses
        = lookupDose userId doseId st.doses := by
  intro l
  induction l with
  | nil => intro st _; rfl
  | cons e t ih =>
      intro st hne
      have hene : e.id ≠ doseId := hne e (List.mem_cons_self e t)
      have hne' : ∀ x ∈ t, x.id ≠ doseId :=
        fun x hx => hne x (List.mem_cons_of_mem _ hx)
      cases hmede : medFor meds e with
      | none =>
          rw [checkLoop_cons_nomed userId profileName meds now e hmede t st]
          exact ih st hne'
      | some me =>
          by_cases hde : dueCheck now e = true
          · rw [checkLoop_cons_due userId profileName meds now e me hmede hde t st]
            show lookupDose userId doseId
                (updateFirstDose userId e.id DoseStatus.due none st.doses) = _
            exact lookupDose_updateFirstDose_other userId userId doseId e.id
              DoseStatus.due none (fun hc => hene hc.symm) st.doses
          · have hde' : dueCheck now e = false := Bool.of_not_eq_true hde
            by_cases hmisse : missedCheck now e = true
            · rw [checkLoop_cons_missed userId profileName meds now e me hmede hde' hmisse t st]
              have hstep : lookupDose userId doseId
                  (addDoseLog userId (missedLog now userId e)
                    (updateDoseStatus userId e.id DoseStatus.missed none st)).doses
                  = lookupDose userId doseId st.doses := by
                rw [addDoseLog_doses]
                exact lookupDose_updateFirstDose_other userId userId doseId e.id
                  DoseStatus.missed none (fun hc => hene hc.symm) st.doses
              rw [show ({ checkLoop userId profileName meds now t
                  (addDoseLog userId (missedLog now userId e)
                    (updateDoseStatus userId e.id DoseStatus.missed none st)) with
                  alerts := _ } : CheckResult).state
                = (checkLoop userId profileName meds now t
                    (addDoseLog userId (missedLog now userId e)
                      (updateDoseStatus userId e.id DoseStatus.missed none st))).state
                from rfl]
              rw [ih _ hne']
              exact hstep
            · have hmisse' : missedCheck now e = false := Bool.of_not_eq_true hmisse
              rw [checkLoop_cons_idle userId profileName meds now e me hmede hde' hmisse' t st]
              exact ih st hne'

/-- On a no-due tick, every missed-eligible snapshot dose with a known
medication ends up stored with status `missed`. -/
theorem checkLoop_no_due_status (userId profileName : String)
    (meds : List Medication) (now : Int) :
    ∀ (l : List DoseInstance) (st : AppState),
      (∀ e ∈ l, dueCheck now e = true → medFor meds e = none) →
      (l.map (fun x => x.id)).Nodup →
      (∀ e ∈ l, lookupDose userId e.id st.doses = some e) →
      ∀ d ∈ l, missedCheck now d = true → ∀ med, medFor meds d = some med →
        lookupDose userId d.id
            (checkLoop userId profileName meds now l st).state.doses
          = some { d with status := DoseStatus.missed } := by
  intro l
  induction l with
  | nil => intro st _ _ _ d hd; exact absurd hd (List.not_mem_nil d)
  | cons e t ih =>
      intro st hnodue hnd hlook d hd hmiss med hmed
      simp only [List.map_cons, List.nodup_cons] at hnd
      have hnodue' : ∀ x ∈ t, dueCheck now x = true → medFor meds x = none :=
        fun x hx => hnodue x (List.mem_cons_of_mem _ hx)
      rcases List.mem_cons.mp hd with rfl | hdt
      · -- the head dose itself is the missed-eligible one
        have hde : dueCheck now d = false := by
          rcases Bool.eq_false_or_eq_true (dueCheck now d) with h | h
          · rw [hnodue d (List.mem_cons_self d t) h] at hmed
            exact absurd hmed (by simp)
          · exact h
        rw [checkLoop_cons_missed userId profileName meds now d med hmed hde hmiss t st]
        have huntouched := checkLoop_lookup_untouched userId profileName meds now d.id t
          (addDoseLog userId (missedLog now userId d)
            (updateDoseStatus userId d.id DoseStatus.missed none st))
          (fun x hx hc => hnd.1 (hc ▸ List.mem_map_of_mem (fun y => y.id) hx))
        show lookupDose userId d.id
            (checkLoop userId profileName meds now t _).state.doses = _
        rw [huntouched, addDoseLog_doses]
        show lookupDose userId d.id
            (updateFirstDose userId d.id DoseStatus.missed none st.doses) = _
        rw [lookupDose_updateFirstDose_self, hlook d (List.mem_cons_self d t)]
        simp [applyStatusUpdate_none]
      · -- the missed-eligible dose sits in the tail
        have hedne : e.id ≠ d.id := by
          intro hc
          exact hnd.1 (hc ▸ List.mem_map_of_mem (fun y => y.id) hdt)
        cases hmede : medFor meds e with
        | none =>
            rw [checkLoop_cons_nomed userId profileName meds now e hmede t st]
            exact ih st hnodue' hnd.2
              (fun x hx => hlook x (List.mem_cons_of_mem _ hx)) d hdt hmiss med hmed
        | some me =>
            have hde : dueCheck now e = false := by
              rcases Bool.eq_false_or_eq_true (dueCheck now e) with h | h
              · rw [hnodue e (List.mem_cons_self e t) h] at hmede
                exact absurd hmede (by simp)
              · exact h
            by_cases hmisse : missedCheck now e = true
            · rw [checkLoop_cons_missed userId profileName meds now e me hmede hde hmisse t st]
              have hlook2 : ∀ x ∈ t, lookupDose userId x.id
                  (addDoseLog userId (missedLog now userId e)
                    (updateDoseStatus userId e.id DoseStatus.missed none st)).doses
                  = some x := by
                intro x hx
                rw [addDoseLog_doses]
                have hxe : x.id ≠ e.id := by
                  intro hc
                  exact hnd.1 (hc ▸ List.mem_map_of_mem (fun y => y.id) hx)
                show lookupDose userId x.id
                    (updateFirstDose userId e.id DoseStatus.missed none st.doses) = _
                rw [lookupDose_updateFirstDose_other userId userId x.id e.id
                  DoseStatus.missed none hxe]
                exact hlook x (List.mem_cons_of_mem _ hx)
              exact ih _ hnodue' hnd.2 hlook2 d hdt hmiss med hmed
            · have hmisse' : missedCheck now e = false := Bool.of_not_eq_true hmisse
              rw [checkLoop_cons_idle userId profileName meds now e me hmede hde hmisse' t st]
              exact ih st hnodue' hnd.2
                (fun x hx => hlook x (List.mem_cons_of_mem _ hx)) d hdt hmiss med hmed

/-- A dose with a different id contributes no log carrying this dose id. -/
theorem countP_missedLogsFor_ne (meds : List Medication) (now : Int)
    (userId doseId : String) (e : DoseInstance) (hne : e.id ≠ doseId) :
    (missedLogsFor meds now userId e).countP (fun lg => lg.doseId == doseId) = 0 := by
  unfold missedLogsFor
  cases medFor meds e with
  | none => rfl
  | some me =>
      by_cases hm : missedCheck now e = true
      · have : ((missedLog now userId e).doseId == doseId) = false := by
          rw [beq_eq_false_iff_ne]
          exact hne
        simp [hm, List.countP_cons, this]
      · simp [Bool.of_not_eq_true hm]

/-- On a no-due tick, the appended logs contain the id of a given
missed-eligible dose exactly once (dose ids pairwise distinct). -/
theorem countP_missedLogsFor_once (meds : List Medication) (now : Int)
    (userId : String) :
    ∀ (l : List DoseInstance) (d : DoseInstance),
      (l.map (fun x => x.id)).Nodup → d ∈ l → missedCheck now d = true →
      ∀ med, medFor meds d = some med →
      ((l.flatMap (missedLogsFor meds now userId)).countP
          (fun lg => lg.doseId == d.id)) = 1 := by
  intro l
  induction l with
  | nil => intro d _ hd; exact absurd hd (List.not_mem_nil d)
  | cons e t ih =>
      intro d hnd hd hmiss med hmed
      simp only [List.map_cons, List.nodup_cons] at hnd
      rw [List.flatMap_cons, List.countP_append]
      rcases List.mem_cons.mp hd with rfl | hdt
      · have hhead : (missedLogsFor meds now userId d).countP
            (fun lg => lg.doseId == d.id) = 1 := by
          unfold missedLogsFor
          rw [hmed]
          simp [hmiss, List.countP_cons, missedLog]
        have htail : ((t.flatMap (missedLogsFor meds now userId)).countP
            (fun lg => lg.doseId == d.id)) = 0 := by
          induction t with
          | nil => rfl
          | cons x xs ihx =>
              rw [List.flatMap_cons, List.countP_append]
              have hx : x.id ≠ d.id := by
                intro hc
                exact hnd.1 (hc ▸ List.mem_map_of_mem (fun y => y.id)
                  (List.mem_cons_self x xs))
              have h1 := countP_missedLogsFor_ne meds now userId d.id x hx
              have h2 : ((xs.flatMap (missedLogsFor meds now userId)).countP
                  (fun lg => lg.doseId == d.id)) = 0 := by
                rw [List.countP_eq_zero]
                intro lg hlg
                rcases List.mem_flatMap.mp hlg with ⟨y, hy, hlgy⟩
                have hyne : y.id ≠ d.id := by
                  intro hc
                  exact hnd.1 (hc ▸ List.mem_map_of_mem (fun z => z.id)
                    (List.mem_cons_of_mem _ hy))
                have := countP_missedLogsFor_ne meds now userId d.id y hyne
                rw [List.countP_eq_zero] at this
                exact this lg hlgy
              omega
        omega
      · have hene : e.id ≠ d.id := by
          intro hc
          exact hnd.1 (hc ▸ List.mem_map_of_mem (fun y => y.id) hdt)
        have h1 := countP_missedLogsFor_ne meds now userId d.id e hene
        have h2 := ih d hnd.2 hdt hmiss med hmed
        omega

/-- C3 (amended): on a poller tick that surfaces no due dose (so the scan's
first-due early exit does not cut the iteration short), every dose with
status `upcoming`, more than 30 minutes past, not snoozed into the future and
whose owning medication record exists is set to `missed`, the appended logs
contain exactly one `missed` entry for it, and exactly one caregiver-alert
dispatch is attempted for it if and only if the medication has caregiver
alerts enabled, a truthy caregiver email and alert-on-missed set; the full
log and alert output of the tick is characterised per dose, and the alert
outcomes never flow back into the stored state (the dispatch is
fire-and-forget by construction). -/
theorem claim_C3_amended (st : AppState) (profile : UserProfile) (now : Int)
    (hactive : getActiveProfile st = some profile)
    (hnodue : ∀ e ∈ getDosesForUser profile.id st,
        dueCheck now e = true → medFor (getMedicationsForUser profile.id st) e = none)
    (hnd : ((getDosesForUser profile.id st).map (fun x => x.id)).Nodup) :
    (checkDoses now st).dueDose = none
    ∧ (checkDoses now st).state.doseLogs
        = st.doseLogs ++ (getDosesForUser profile.id st).flatMap
            (missedLogsFor (getMedicationsForUser profile.id st) now profile.id)
    ∧ (checkDoses now st).alerts
        = (getDosesForUser profile.id st).flatMap
            (missedAlertsFor (getMedicationsForUser profile.id st) now profile.name)
    ∧ (∀ d ∈ getDosesForUser profile.id st, missedCheck now d = true →
        ∀ med, medFor (getMedicationsForUser profile.id st) d = some med →
          lookupDose profile.id d.id (checkDoses now st).state.doses
              = some { d with status := DoseStatus.missed }
          ∧ ((getDosesForUser profile.id st).flatMap
                (missedLogsFor (getMedicationsForUser profile.id st) now profile.id)).countP
                (fun lg => lg.doseId == d.id) = 1
          ∧ missedAlertsFor (getMedicationsForUser profile.id st) now profile.name d
              = (if missedAlertCond med
                  then [missedAlertPayload profile.name med d] else [])) := by
  have hres : checkDoses now st
      = checkLoop profile.id profile.name (getMedicationsForUser profile.id st)
          now (getDosesForUser profile.id st) st := by
    simp only [checkDoses, hactive]
  have hchar := checkLoop_no_due profile.id profile.name
    (getMedicationsForUser profile.id st) now (getDosesForUser profile.id st) st hnodue
  have hlook : ∀ e ∈ getDosesForUser profile.id st,
      lookupDose profile.id e.id st.doses = some e :=
    fun e he => lookupDose_of_filter_nodup profile.id st.doses hnd e he
  refine ⟨hres ▸ hchar.1, hres ▸ hchar.2.2.1, hres ▸ hchar.2.2.2.1, ?_⟩
  intro d hd hmiss med hmed
  refine ⟨?_, ?_, ?_⟩
  · rw [hres]
    exact checkLoop_no_due_status profile.id profile.name
      (getMedicationsForUser profile.id st) now (getDosesForUser profile.id st) st
      hnodue hnd hlook d hd hmiss med hmed
  · exact countP_missedLogsFor_once (getMedicationsForUser profile.id st) now
      profile.id (getDosesForUser profile.id st) d hnd hd hmiss med hmed
  · unfold missedAlertsFor
    rw [hmed]
    simp [hmiss]

/-- C3 fails as stated: in the fixture store the due-window dose `dDue`
precedes the 40-minutes-late dose `dMiss`; the tick surfaces `dDue` and
returns, so `dMiss` — upcoming, unsnoozed, more than 30 minutes past, with
its medication present — is neither marked missed nor logged. -/
theorem claim_C3_counterexample :
    missedCheck 2000000 dMiss = true
    ∧ (medFor (getMedicationsForUser (pA.id) stA) dMiss).isSome = true
    ∧ dMiss ∈ getDosesForUser (pA.id) stA
    ∧ (checkDoses 2000000 stA).state.doseLogs = []
    ∧ lookupDose (pA.id) (dMiss.id) (checkDoses 2000000 stA).state.doses
        = some dMiss := by
  refine ⟨by decide, by decide, by decide, by decide, by decide⟩

/-- Witness for C3 (amended): on the single-dose fixture (no due-eligible
dose), the tick marks the late dose missed and surfaces nothing. -/
theorem claim_C3_witness :
    lookupDose (pA.id) (dMiss.id) (checkDoses 2000000 stC2).state.doses
        = some { dMiss with status := DoseStatus.missed }
    ∧ (checkDoses 2000000 stC2).dueDose = none := by
  have h := claim_C3_amended stC2 pA 2000000 (by decide) (by decide) (by decide)
  exact ⟨(h.2.2.2 dMiss (by decide) (by decide) mA (by decide)).1, h.1⟩

/-! ## C4 — snooze never reaches storage (code bug) -/

/-- A dose the poller has surfaced: stored status `due`, scheduled at 0. -/
def dSnooze : DoseInstance :=
  { id := "d4", medicationId := mA.id, userId := uA, scheduledTime := 0,
    status := DoseStatus.due }

def stC4 : AppState :=
  { profiles := [pA], medications := [mA], doses := [dSnooze],
    doseLogs := [], medicationInfoCache := [] }

/-- C4 is the intended behaviour but the code drops the snooze: `snoozeDose`
builds `updatedDose` carrying `snoozedUntil = now + N·60000` and then never
stores it — the only persisted write is `updateDoseStatus(..., 'upcoming')`,
which cannot touch `snoozedUntil`. Concretely: snoozing the surfaced fixture
dose at time 0 for 10 minutes leaves its stored `snoozedUntil` at `none`
(first conjunct: the stored row equals the dose with only its status reset),
so the very next tick at 60000 ms — well before the snooze end 600000 ms —
surfaces the dose as `due` again and persists status `due` (second and third
conjuncts), contradicting "neither transition before now + N minutes". -/
theorem claim_C4_snooze_not_persisted :
    lookupDose uA (dSnooze.id) (snoozeDose uA dSnooze 10 0 stC4).doses
        = some { dSnooze with status := DoseStatus.upcoming }
    ∧ (checkDoses 60000 (snoozeDose uA dSnooze 10 0 stC4)).dueDose
        = some { dSnooze with status := DoseStatus.due }
    ∧ lookupDose uA (dSnooze.id)
          (checkDoses 60000 (snoozeDose uA dSnooze 10 0 stC4)).state.doses
        = some { dSnooze with status := DoseStatus.due } := by
  refine ⟨by decide, by decide, by decide⟩

/-! ## C7 — drug-info cache: one network call for a repeated name -/

theorem setAssoc_find_self (key : String) (entry : MedicationInfoCacheEntry) :
    ∀ l : List (String × MedicationInfoCacheEntry),
      (setAssoc key entry l).find? (fun e => e.1 == key) = some (key, entry) := by
  intro l
  induction l with
  | nil => simp [setAssoc, List.find?]
  | cons kv rest ih =>
      by_cases h : (kv.1 == key) = true
      · simp [setAssoc, h, List.find?_cons]
      · have h' := Bool.of_not_eq_true h
        simp only [setAssoc, if_neg h]
        simp [List.find?_cons, h']
        exact ih

/-- A freshly stored cache entry is what the next lookup under the same key
returns. -/
theorem getMedicationInfoCache_set_same (key : String)
    (entry : MedicationInfoCacheEntry) (st : AppState) :
    getMedicationInfoCache key (setMedicationInfoCache key entry st) = some entry := by
  show ((setAssoc key entry st.medicationInfoCache).find? (fun e => e.1 == key)).map _
      = some entry
  rw [setAssoc_find_self key entry st.medicationInfoCache]
  rfl

/-- The cache entry `fetchAndStoreDrugInfo` writes for a resolved response. -/
def fetchedEntry (r : DrugInfoResponse) (t : Int) : MedicationInfoCacheEntry :=
  { url := r.source_url, markdown := none,
    general := some r.general_markdown,
    usage := some r.usage_markdown,
    sideEffects := some r.side_effects_markdown,
    fetchedAt := t }

/-- Opening the modal on a cache miss takes the fetch path. -/
theorem openMedicationInfoCached_cache_miss (name : String) (t : Int)
    (b : FetchResult) (st : AppState)
    (hcond : (name == "" || normalizeCacheKey name == "") = false)
    (hmiss : getMedicationInfoCache (normalizeCacheKey name) st = none) :
    openMedicationInfoCached name t b st
      = fetchAndStoreDrugInfo (normalizeCacheKey name) t b st := by
  simp [openMedicationInfoCached, hcond, hmiss]

/-- Opening the modal on a cached entry with all three sections truthy serves
the cache: no network call, no state change. -/
theorem openMedicationInfoCached_cache_hit (name : String) (t : Int)
    (b : FetchResult) (st : AppState) (c : MedicationInfoCacheEntry)
    (hcond : (name == "" || normalizeCacheKey name == "") = false)
    (hc : getMedicationInfoCache (normalizeCacheKey name) st = some c)
    (hg : optStrTruthy c.general = true) (hu : optStrTruthy c.usage = true)
    (hs : optStrTruthy c.sideEffects = true) :
    openMedicationInfoCached name t b st
      = { state := st, networkCalls := 0,
          shown := some (c.general.getD "", c.usage.getD "", c.sideEffects.getD ""),
          errorShown := false } := by
  simp [openMedicationInfoCached, hcond, hc, hg, hu, hs]

/-- C7 (amended): two drug-info requests whose names agree after trimming and
case folding issue exactly one backend call — the second is served from the
cache under the normalized key — provided the first fetch succeeded and all
three returned markdown sections are non-empty. (The counterexample shows the
proviso is necessary: an empty section makes the stored entry fail the
cache-hit guard and the second request fetches again.) -/
theorem claim_C7_amended (n1 n2 : String) (t1 t2 : Int) (b2 : FetchResult)
    (r : DrugInfoResponse) (st : AppState)
    (hkey : normalizeCacheKey n1 = normalizeCacheKey n2)
    (hn1 : (n1 == "") = false) (hn2 : (n2 == "") = false)
    (hk1 : (normalizeCacheKey n1 == "") = false)
    (hmiss : getMedicationInfoCache (normalizeCacheKey n1) st = none)
    (hg : (r.general_markdown == "") = false)
    (hu : (r.usage_markdown == "") = false)
    (hs : (r.side_effects_markdown == "") = false) :
    (openMedicationInfoCached n1 t1 (FetchResult.ok r) st).networkCalls = 1
    ∧ (openMedicationInfoCached n2 t2 b2
        (openMedicationInfoCached n1 t1 (FetchResult.ok r) st).state).networkCalls = 0
    ∧ (openMedicationInfoCached n2 t2 b2
        (openMedicationInfoCached n1 t1 (FetchResult.ok r) st).state).shown
        = some (r.general_markdown, r.usage_markdown, r.side_effects_markdown)
    ∧ (openMedicationInfoCached n2 t2 b2
        (openMedicationInfoCached n1 t1 (FetchResult.ok r) st).state).state
        = (openMedicationInfoCached n1 t1 (FetchResult.ok r) st).state := by
  have hcond1 : (n1 == "" || normalizeCacheKey n1 == "") = false := by
    rw [hn1, hk1]
    rfl
  have hcond2 : (n2 == "" || normalizeCacheKey n2 == "") = false := by
    rw [hn2, ← hkey, hk1]
    rfl
  have ho1 : openMedicationInfoCached n1 t1 (FetchResult.ok r) st
      = { state := setMedicationInfoCache (normalizeCacheKey n1) (fetchedEntry r t1) st,
          networkCalls := 1,
          shown := some (r.general_markdown, r.usage_markdown, r.side_effects_markdown),
          errorShown := false } := by
    rw [openMedicationInfoCached_cache_miss n1 t1 (FetchResult.ok r) st hcond1 hmiss]
    simp [fetchAndStoreDrugInfo, fetchedEntry]
  have hhit : getMedicationInfoCache (normalizeCacheKey n2)
      (openMedicationInfoCached n1 t1 (FetchResult.ok r) st).state
      = some (fetchedEntry r t1) := by
    rw [ho1, ← hkey]
    exact getMedicationInfoCache_set_same (normalizeCacheKey n1) _ st
  have ho2 : openMedicationInfoCached n2 t2 b2
      (openMedicationInfoCached n1 t1 (FetchResult.ok r) st).state
      = { state := (openMedicationInfoCached n1 t1 (FetchResult.ok r) st).state,
          networkCalls := 0,
          shown := some (r.general_markdown, r.usage_markdown, r.side_effects_markdown),
          errorShown := false } := by
    rw [openMedicationInfoCached_cache_hit n2 t2 b2
      (openMedicationInfoCached n1 t1 (FetchResult.ok r) st).state (fetchedEntry r t1)
      hcond2 hhit (by simp [fetchedEntry, optStrTruthy, hg])
      (by simp [fetchedEntry, optStrTruthy, hu])
      (by simp [fetchedEntry, optStrTruthy, hs])]
    simp [fetchedEntry]
  rw [ho2]
  rw [ho1]
  exact ⟨rfl, rfl, rfl, rfl⟩

def nameAsp : String := "Aspirin"

def nameAspLower : String := "aspirin"

def stEmpty : AppState :=
  { profiles := [], medications := [], doses := [], doseLogs := [],
    medicationInfoCache := [] }

/-- A successful backend response whose general section is empty (the
"not found" shape). -/
def drugEmptyGeneral : DrugInfoResponse :=
  { medication_name := nameAsp, source_url := "url", general_markdown := "",
    usage_markdown := "usage text", side_effects_markdown := "effects text" }

/-- A successful backend response with all three sections populated. -/
def drugFull : DrugInfoResponse :=
  { medication_name := nameAsp, source_url := "url", general_markdown := "general text",
    usage_markdown := "usage text", side_effects_markdown := "effects text" }

/-- C7 fails as stated: when the first (successful) fetch returns an empty
general section, the stored cache entry fails the cache-hit guard and the
second request for the case-equivalent name fetches again — two network
calls, not one. -/
theorem claim_C7_counterexample :
    normalizeCacheKey nameAsp = normalizeCacheKey nameAspLower
    ∧ (openMedicationInfoCached nameAsp 0 (FetchResult.ok drugEmptyGeneral) stEmpty).networkCalls
      + (openMedicationInfoCached nameAspLower 0 (FetchResult.ok drugEmptyGeneral)
          (openMedicationInfoCached nameAsp 0
            (FetchResult.ok drugEmptyGeneral) stEmpty).state).networkCalls = 2 := by
  refine ⟨by decide, by decide⟩

/-- Witness for C7 (amended): with a fully populated first response, the
second case-equivalent request issues no network call and is served the
cached sections. -/
theorem claim_C7_witness :
    (openMedicationInfoCached nameAsp 0 (FetchResult.ok drugFull) stEmpty).networkCalls = 1
    ∧ (openMedicationInfoCached nameAspLower 5 FetchResult.fail
        (openMedicationInfoCached nameAsp 0 (FetchResult.ok drugFull) stEmpty).state).networkCalls = 0
    ∧ (openMedicationInfoCached nameAspLower 5 FetchResult.fail
        (openMedicationInfoCached nameAsp 0 (FetchResult.ok drugFull) stEmpty).state).shown
        = some (drugFull.general_markdown, drugFull.usage_markdown,
            drugFull.side_effects_markdown) := by
  have h := claim_C7_amended nameAsp nameAspLower 0 5 FetchResult.fail drugFull stEmpty
    (by decide) (by decide) (by decide) (by decide) (by decide) (by decide)
    (by decide) (by decide)
  exact ⟨h.1, h.2.1, h.2.2.1⟩

/-! ## C9 — empty general section surfaces the advisory, not content -/

/-- C9: a resolved drug-info response with an empty general section sets the
"not found" advisory error and no content (the modal renders content only
when `drugInfo` is set and `error` is not), instead of displaying the
response normally; a response with a non-empty general section is displayed
with no error. -/
theorem claim_C9_empty_general_advisory (r : DrugInfoResponse) :
    (r.general_markdown = "" →
        (handleDrugInfoResponse (FetchResult.ok r)).1 = none
        ∧ (handleDrugInfoResponse (FetchResult.ok r)).2
            = some "Information not available. Please check the spelling or ask your pharmacist.")
    ∧ (r.general_markdown ≠ "" →
        (handleDrugInfoResponse (FetchResult.ok r)).1 = some r
        ∧ (handleDrugInfoResponse (FetchResult.ok r)).2 = none) := by
  constructor
  · intro h
    constructor <;> simp [handleDrugInfoResponse, h]
  · intro h
    constructor <;> simp [handleDrugInfoResponse, h]

/-- Witness for C9: the fixture empty-general response yields the advisory
and no content; the populated response yields content and no error. -/
theorem claim_C9_witness :
    (handleDrugInfoResponse (FetchResult.ok drugEmptyGeneral)).1 = none
    ∧ (handleDrugInfoResponse (FetchResult.ok drugFull)).2 = none := by
  have h1 := (claim_C9_empty_general_advisory drugEmptyGeneral).1 (by decide)
  have h2 := (claim_C9_empty_general_advisory drugFull).2 (by decide)
  exact ⟨h1.1, h2.2⟩

/-! ## C8 — twice-daily medication creates exactly two today-doses -/

theorem saveMedicationsForUser_doses (userId : String) (meds : List Medication)
    (st : AppState) : (saveMedicationsForUser userId meds st).doses = st.doses := rfl

/-- Rows excluded by user id never reappear in that user's view. -/
theorem filter_userId_of_excluded (userId : String) :
    ∀ l : List DoseInstance,
      (l.filter (fun d => !(d.userId == userId))).filter (fun d => d.userId == userId)
        = [] := by
  intro l
  induction l with
  | nil => rfl
  | cons a t ih =>
      by_cases ha : (a.userId == userId) = true
      · simp [List.filter_cons, ha, ih]
      · have ha' := Bool.of_not_eq_true ha
        simp [List.filter_cons, ha', ih]

/-- Forcing the user id on a row of that same user changes nothing. -/
theorem withUserId_of_own (userId : String) (d : DoseInstance)
    (h : d.userId = userId) : ({ d with userId := userId } : DoseInstance) = d := by
  cases d
  simp_all

/-- Rows written with the user id forced all pass that user's filter. -/
theorem filter_userId_of_mapped (userId : String) :
    ∀ l : List DoseInstance,
      (l.map (fun d => { d with userId := userId })).filter
          (fun d => d.userId == userId)
        = l.map (fun d => { d with userId := userId }) := by
  intro l
  induction l with
  | nil => rfl
  | cons a t ih => simp [List.filter_cons, ih]

/-- The user's view of `saveDosesForUser` is exactly the written list with
the user id forced. -/
theorem getDosesForUser_saveDosesForUser (userId : String)
    (doses : List DoseInstance) (st : AppState) :
    getDosesForUser userId (saveDosesForUser userId doses st)
      = doses.map (fun d => { d with userId := userId }) := by
  show ((st.doses.filter (fun (d : DoseInstance) => !(d.userId == userId)))
      ++ doses.map (fun (d : DoseInstance) => { d with userId := userId })).filter
        (fun (d : DoseInstance) => d.userId == userId)
      = doses.map (fun (d : DoseInstance) => { d with userId := userId })
  rw [List.filter_append, filter_userId_of_excluded, List.nil_append,
    filter_userId_of_mapped]

/-- Forcing the owner on rows the owner already owns is the identity. -/
theorem map_withUserId_of_own (userId : String) :
    ∀ l : List DoseInstance, (∀ d ∈ l, d.userId = userId) →
      l.map (fun d => { d with userId := userId }) = l := by
  intro l
  induction l with
  | nil => intro _; rfl
  | cons a t ih =>
      intro h
      rw [List.map_cons, withUserId_of_own userId a (h a (List.mem_cons_self a t)),
        ih (fun d hd => h d (List.mem_cons_of_mem _ hd))]

/-- C8: adding a twice-daily medication with clock times 08:00 and 20:00
appends exactly two dose instances to the user's doses — one at
midnight+8h, one at midnight+20h, both on the current day, both with status
`upcoming` and no snooze — and creates no dose for any later day (both
scheduled times lie inside the current day's 24-hour window). -/
theorem claim_C8_twice_daily_two_doses (userId newMedicationId name doseText : String)
    (todayMidnight : Int) (st : AppState) :
    getDosesForUser userId
        (saveMedication userId newMedicationId name doseText
          MedicationFrequency.twice ["08:00", "20:00"] todayMidnight st)
      = getDosesForUser userId st
        ++ [{ id := newMedicationId ++ "-" ++ "08:00",
              medicationId := newMedicationId, userId := userId,
              scheduledTime := todayMidnight + 28800000,
              status := DoseStatus.upcoming, takenAt := none, snoozedUntil := none },
            { id := newMedicationId ++ "-" ++ "20:00",
              medicationId := newMedicationId, userId := userId,
              scheduledTime := todayMidnight + 72000000,
              status := DoseStatus.upcoming, takenAt := none, snoozedUntil := none }]
    ∧ (∀ d ∈ mkDosesForNewMedication newMedicationId userId
          MedicationFrequency.twice ["08:00", "20:00"] todayMidnight,
        d.status = DoseStatus.upcoming
        ∧ todayMidnight ≤ d.scheduledTime
        ∧ d.scheduledTime < todayMidnight + 86400000) := by
  have h8 : timeToMs "08:00" = 28800000 := by decide
  have h20 : timeToMs "20:00" = 72000000 := by decide
  have hmk : mkDosesForNewMedication newMedicationId userId
      MedicationFrequency.twice ["08:00", "20:00"] todayMidnight
      = [{ id := newMedicationId ++ "-" ++ "08:00",
           medicationId := newMedicationId, userId := userId,
           scheduledTime := todayMidnight + 28800000,
           status := DoseStatus.upcoming, takenAt := none, snoozedUntil := none },
         { id := newMedicationId ++ "-" ++ "20:00",
           medicationId := newMedicationId, userId := userId,
           scheduledTime := todayMidnight + 72000000,
           status := DoseStatus.upcoming, takenAt := none, snoozedUntil := none }] := by
    simp [mkDosesForNewMedication, h8, h20]
  have hsm : saveMedication userId newMedicationId name doseText
      MedicationFrequency.twice ["08:00", "20:00"] todayMidnight st
      = saveDosesForUser userId
          (getDosesForUser userId st
            ++ mkDosesForNewMedication newMedicationId userId
                MedicationFrequency.twice ["08:00", "20:00"] todayMidnight)
          (saveMedicationsForUser userId
            (getMedicationsForUser userId st
              ++ [{ id := newMedicationId, userId := userId, name := name,
                    dose := doseText, frequency := MedicationFrequency.twice,
                    times := ["08:00", "20:00"] }]) st) := rfl
  constructor
  · rw [hsm, getDosesForUser_saveDosesForUser, List.map_append, hmk]
    have hown : (getDosesForUser userId st).map
        (fun (d : DoseInstance) => { d with userId := userId })
        = getDosesForUser userId st := by
      apply map_withUserId_of_own
      intro d hd
      simpa using (List.mem_filter.mp hd).2
    rw [hown]
    rfl
  · intro d hd
    rw [hmk] at hd
    simp only [List.mem_cons, List.not_mem_nil, or_false] at hd
    rcases hd with rfl | rfl
    · exact ⟨rfl, by simp only []; omega, by simp only []; omega⟩
    · exact ⟨rfl, by simp only []; omega, by simp only []; omega⟩

/-- The 08:00 dose created for the witness medication on day-start 0. -/
def wD8 : DoseInstance :=
  { id := mB.id ++ "-" ++ "08:00", medicationId := mB.id, userId := uA,
    scheduledTime := 28800000, status := DoseStatus.upcoming,
    takenAt := none, snoozedUntil := none }

/-- Witness for C8: on the empty fixture store the save produces exactly the
two today-doses, and the created 08:00 dose is upcoming and inside day 0. -/
theorem claim_C8_witness :
    getDosesForUser uA
        (saveMedication uA (mB.id) (mB.name) (mB.dose)
          MedicationFrequency.twice ["08:00", "20:00"] 0 stEmpty)
      = getDosesForUser uA stEmpty
        ++ [{ id := mB.id ++ "-" ++ "08:00", medicationId := mB.id, userId := uA,
              scheduledTime := (0 : Int) + 28800000, status := DoseStatus.upcoming,
              takenAt := none, snoozedUntil := none },
            { id := mB.id ++ "-" ++ "20:00", medicationId := mB.id, userId := uA,
              scheduledTime := (0 : Int) + 72000000, status := DoseStatus.upcoming,
              takenAt := none, snoozedUntil := none }]
    ∧ (wD8.status = DoseStatus.upcoming
        ∧ (0 : Int) ≤ wD8.scheduledTime ∧ wD8.scheduledTime < (0 : Int) + 86400000) := by
  have h := claim_C8_twice_daily_two_doses uA (mB.id) (mB.name) (mB.dose) 0 stEmpty
  exact ⟨h.1, h.2 wD8 (by decide)⟩

end MedComp
